import Mathlib

/-!
Verification development for the product-review enrichment pipeline
(`backend/src/price_comparison.py`, `backend/src/web_search.py`,
`backend/src/workflow_orchestrator.py`).

The Python code is shallowly embedded: strings are Lean `String`s
(`str.lower`/`str.upper` are modelled on the ASCII range, which covers every
vocabulary word, key and marker the code manipulates), Python floats are
modelled as exact rationals `ℚ`, Python `dict` records with optional keys are
structures with `Option` fields, and every fallible external collaborator
(search provider, generative model, cache store, scraper) is an explicit
oracle parameter returning `Except`/`Option` values.
-/

namespace ProductReview

/-! ### Python string primitives (ASCII model) -/

/-- ASCII uppercase test, `65 ≤ c ≤ 90`. -/
def isUpperAscii (c : Char) : Bool := 65 ≤ c.toNat && c.toNat ≤ 90

/-- ASCII lowercase test, `97 ≤ c ≤ 122`. -/
def isLowerAscii (c : Char) : Bool := 97 ≤ c.toNat && c.toNat ≤ 122

/-- `str.lower` on one character (ASCII model of the Python behaviour). -/
def pyLowerChar (c : Char) : Char :=
  if isUpperAscii c then Char.ofNat (c.toNat + 32) else c

/-- `str.upper` on one character (ASCII model). -/
def pyUpperChar (c : Char) : Char :=
  if isLowerAscii c then Char.ofNat (c.toNat - 32) else c

/-- Python `s.lower()` (ASCII model). -/
def pyLower (s : String) : String := ⟨s.data.map pyLowerChar⟩

/-- Python `s.upper()` (ASCII model). -/
def pyUpper (s : String) : String := ⟨s.data.map pyUpperChar⟩

/-- Python `needle in hay` substring test, on character lists. -/
def infixOf (n : List Char) : List Char → Bool
  | [] => n.isEmpty
  | c :: rest => n.isPrefixOf (c :: rest) || infixOf n rest

/-- Python `needle in hay` substring test on strings. -/
def pyIn (needle hay : String) : Bool := infixOf needle.data hay.data

/-- Python `str.strip()`: drop leading and trailing whitespace. -/
def pyStrip (s : String) : String :=
  ⟨(s.data.dropWhile Char.isWhitespace).reverse.dropWhile Char.isWhitespace |>.reverse⟩

/-- Python `str.lstrip(chars)`: drop leading characters belonging to `chars`. -/
def pyLstrip (chars : List Char) (s : String) : String :=
  ⟨s.data.dropWhile (fun c => chars.contains c)⟩

/-- Python truthiness of a string: non-empty. -/
def pyTruthy (s : String) : Bool := !s.isEmpty

/-- Python `a or b` on optional strings (`None` and `""` are falsy). -/
def pyOrStr (a b : Option String) : Option String :=
  match a with
  | some s => if pyTruthy s then some s else b
  | none => b

/-- Python `dict.get(k, default)` where the key may be absent. -/
def pyGet (v : Option String) (default : String) : String := v.getD default

/-- Python `s.split(c)` for a one-character separator: split on every
occurrence, keeping empty pieces. -/
def pySplitChar (c : Char) (s : String) : List String :=
  (s.data.splitOn c).map String.mk

/-- Python `s.startswith(prefix)`. -/
def pyStartswith (pre s : String) : Bool := pre.data.isPrefixOf s.data

/-- Python `s.replace(old, new)` on character lists: replace non-overlapping
occurrences left to right (`old` is never empty at the call sites). -/
def listReplace (old new : List Char) : List Char → List Char
  | [] => []
  | c :: rest =>
    if !old.isEmpty && old.isPrefixOf (c :: rest) then
      new ++ listReplace old new ((c :: rest).drop old.length)
    else c :: listReplace old new rest
termination_by l => l.length
decreasing_by
  · rename_i h
    simp only [Bool.and_eq_true, Bool.not_eq_true] at h
    have hlen : old.length ≠ 0 := by
      intro hz
      rw [List.length_eq_zero] at hz
      rw [hz] at h
      simp [List.isEmpty] at h
    simp only [List.length_drop, List.length_cons]
    omega
  · simp

/-- Python `s.replace(old, new)`. -/
def pyReplace (s old new : String) : String := ⟨listReplace old.data new.data s.data⟩

/-- Decimal value of a digit run (most significant first). -/
def digitsVal (ds : List Char) : Nat :=
  ds.foldl (fun acc c => acc * 10 + (c.toNat - 48)) 0

/-- `re.findall(r'\d+', s)` followed by `int(...)`: the values of all maximal
digit runs of `s`, in order of appearance. -/
def findAllNats (s : String) : List Nat :=
  go s.data
where
  go : List Char → List Nat
    | [] => []
    | c :: rest =>
      if c.isDigit then
        digitsVal ((c :: rest).takeWhile Char.isDigit) :: go (rest.dropWhile Char.isDigit)
      else go rest
  termination_by l => l.length
  decreasing_by
    · exact Nat.lt_succ_of_le ((List.dropWhile_sublist _).length_le)
    · simp

/-- Fractional value of a digit run read after a decimal point. -/
def fracVal (ds : List Char) : ℚ :=
  ds.foldr (fun c acc => ((c.toNat - 48 : ℕ) + acc) / 10) 0

/-- Python `float(s)` restricted to strings containing only digits and dots
(the shape produced by `re.sub(r'[^\d.]', '', price_str)`): accepts at most
one dot and at least one digit, else fails like `float` raising `ValueError`. -/
def pyFloatOfDigitsDots (s : String) : Option ℚ :=
  let cs := s.data
  if cs.all (fun c => c.isDigit || c = '.') then
    match cs.splitOn '.' with
    | [intPart] =>
      if intPart.isEmpty then none else some (digitsVal intPart)
    | [intPart, fracPart] =>
      if intPart.isEmpty && fracPart.isEmpty then none
      else some ((digitsVal intPart : ℚ) + fracVal fracPart)
    | _ => none
  else none

/-- `re.sub(r'[^\d.]', '', s)`: keep only digits and dots. -/
def keepDigitsDots (s : String) : String :=
  ⟨s.data.filter (fun c => c.isDigit || c = '.')⟩

/-- `re.sub(r'[^\w\s]', '', s)`: keep word characters and whitespace
(ASCII model of `\w`: alphanumeric or underscore). -/
def keepWordSpace (s : String) : String :=
  ⟨s.data.filter (fun c => c.isAlphanum || c = '_' || c.isWhitespace)⟩

/-! ### `difflib.SequenceMatcher` model

`_calculate_product_similarity` uses `SequenceMatcher(None, t1, t2).ratio()`.
We model the Ratcliff–Obershelp computation: repeatedly take the longest
matching block (ties broken by the earliest start in `a`, then in `b`),
recurse on both sides, and return `2*M/T` where `M` is the total matched
length and `T` the total length (`1` when both strings are empty, as in
difflib's `_calculate_ratio`).  The `autojunk` popularity heuristic only
activates for second strings of length ≥ 200 and is not modelled. -/

/-- Length of the longest common prefix of two character lists. -/
def commonPrefixLen : List Char → List Char → Nat
  | a :: as, b :: bs => if a = b then commonPrefixLen as bs + 1 else 0
  | _, _ => 0

/-- A matching block `(i, j, size)` as in difflib. -/
structure MatchBlock where
  i : Nat
  j : Nat
  size : Nat
deriving DecidableEq, Repr

/-- Length of the matching run starting at `(i, j)`, truncated to the window
ends `ahi`, `bhi`. -/
def matchLenAt (a b : List Char) (i j ahi bhi : Nat) : Nat :=
  min (commonPrefixLen (a.drop i) (b.drop j)) (min (ahi - i) (bhi - j))

/-- `SequenceMatcher.find_longest_match` on the window
`[alo, ahi) × [blo, bhi)`: the longest matching block, earliest in `a` then
earliest in `b` on ties. -/
def find_longest_match (a b : List Char) (alo ahi blo bhi : Nat) : MatchBlock :=
  (List.range' alo (ahi - alo)).foldl (fun best i =>
    (List.range' blo (bhi - blo)).foldl (fun best j =>
      let k := matchLenAt a b i j ahi bhi
      if best.size < k then ⟨i, j, k⟩ else best) best)
    ⟨alo, blo, 0⟩

/-- Total size of all matching blocks (`sum(size for block in
get_matching_blocks())`), computed with explicit fuel; the top-level call
passes fuel `|a| + |b|`, which bounds the recursion depth. -/
def matchTotal (a b : List Char) : Nat → Nat → Nat → Nat → Nat → Nat
  | 0, _, _, _, _ => 0
  | fuel + 1, alo, ahi, blo, bhi =>
    let m := find_longest_match a b alo ahi blo bhi
    if m.size = 0 then 0
    else matchTotal a b fuel alo m.i blo m.j + m.size +
         matchTotal a b fuel (m.i + m.size) ahi (m.j + m.size) bhi

/-- `SequenceMatcher(None, s, t).ratio()`. -/
def seqRatio (s t : String) : ℚ :=
  let a := s.data
  let b := t.data
  let total := a.length + b.length
  if total = 0 then 1
  else 2 * (matchTotal a b total 0 a.length 0 b.length : ℚ) / (total : ℚ)

/-! ### `price_comparison.py` — `SerperPriceComparison`

Embedded from `backend/src/price_comparison.py`.  The `url`, `delivery` and
`thumbnail` fields of a normalized offer are pure pass-through presentation
data touched by no verified property and are omitted from the `Offer`
record (with them, `_extract_direct_url`'s redirect unwrapping would also
have to be modelled). -/

/-- The fixed brand vocabulary of `_extract_product_attributes`. -/
def brandVocabulary : List String :=
  ["apple", "samsung", "oneplus", "xiaomi", "realme", "oppo", "vivo",
   "google", "motorola", "nokia", "asus", "sony", "lg", "huawei",
   "iphone", "galaxy", "pixel", "redmi", "poco"]

/-- The fixed color vocabulary of `_extract_product_attributes`. -/
def colorVocabulary : List String :=
  ["black", "white", "blue", "red", "green", "yellow", "pink", "purple",
   "gold", "silver", "grey", "gray", "titanium", "natural", "midnight",
   "starlight", "sierra", "alpine"]

/-- Try to match `(\d+)\s*(gb|tb)` at the head of `cs`; on success return the
`f"{digits}{unit}"` value stored by the code. -/
def storageAt (cs : List Char) : Option String :=
  let ds := cs.takeWhile Char.isDigit
  if ds.isEmpty then none
  else
    let rest := (cs.dropWhile Char.isDigit).dropWhile Char.isWhitespace
    if "gb".data.isPrefixOf rest then some (String.mk ds ++ "gb")
    else if "tb".data.isPrefixOf rest then some (String.mk ds ++ "tb")
    else none

/-- Try to match `(\d+)\s*gb\s*ram` at the head of `cs`; value `f"{digits}gb"`. -/
def ramAt (cs : List Char) : Option String :=
  let ds := cs.takeWhile Char.isDigit
  if ds.isEmpty then none
  else
    let r1 := (cs.dropWhile Char.isDigit).dropWhile Char.isWhitespace
    if "gb".data.isPrefixOf r1 then
      let r2 := (r1.drop 2).dropWhile Char.isWhitespace
      if "ram".data.isPrefixOf r2 then some (String.mk ds ++ "gb") else none
    else none

/-- Try to match `(pro max|pro|plus|ultra|lite|mini|\d+[a-z]?)` at the head of
`cs`, alternatives in source order, `\d+` greedy with an optional trailing
lowercase letter. -/
def modelAt (cs : List Char) : Option String :=
  if "pro max".data.isPrefixOf cs then some "pro max"
  else if "pro".data.isPrefixOf cs then some "pro"
  else if "plus".data.isPrefixOf cs then some "plus"
  else if "ultra".data.isPrefixOf cs then some "ultra"
  else if "lite".data.isPrefixOf cs then some "lite"
  else if "mini".data.isPrefixOf cs then some "mini"
  else
    let ds := cs.takeWhile Char.isDigit
    if ds.isEmpty then none
    else
      match cs.drop ds.length with
      | c :: _ => if isLowerAscii c then some (String.mk (ds ++ [c])) else some (String.mk ds)
      | [] => some (String.mk ds)

/-- `re.search`: try a head-anchored matcher at every position left to right. -/
def searchPos {α : Type} (f : List Char → Option α) : List Char → Option α
  | [] => f []
  | c :: rest =>
    match f (c :: rest) with
    | some r => some r
    | none => searchPos f rest

/-- The attribute dictionary produced by `_extract_product_attributes`;
absent keys are `none`. -/
structure Attrs where
  brand : Option String
  storage : Option String
  ram : Option String
  color : Option String
  model : Option String
deriving DecidableEq, Repr

/-- `_extract_product_attributes(title)`. -/
def extract_product_attributes (title : String) : Attrs :=
  let t := pyLower title
  { brand := brandVocabulary.find? (fun b => pyIn b t)
    storage := searchPos storageAt t.data
    ram := searchPos ramAt t.data
    color := colorVocabulary.find? (fun c => pyIn c t)
    model := searchPos modelAt t.data }

/-- One iteration of the attribute loop: (contribution to `total_attributes`,
contribution to `attribute_matches`). -/
def keyTally (x y : Option String) : Nat × Nat :=
  (if x.isSome || y.isSome then 1 else 0,
   match x, y with
   | some v, some w => if v = w then 1 else 0
   | _, _ => 0)

/-- The normalized form `re.sub(r'[^\w\s]', '', title.lower())`. -/
def normalizedTitle (title : String) : String := keepWordSpace (pyLower title)

/-- The sequence-similarity factor of `_calculate_product_similarity`. -/
def sequence_similarity (title1 title2 : String) : ℚ :=
  seqRatio (normalizedTitle title1) (normalizedTitle title2)

/-- The attribute-similarity factor of `_calculate_product_similarity`:
the loop runs over `['brand', 'storage', 'ram', 'model']` only (`color` is
extracted but never compared). -/
def attribute_similarity (title1 title2 : String) : ℚ :=
  let attrs1 := extract_product_attributes title1
  let attrs2 := extract_product_attributes title2
  let tallies := [keyTally attrs1.brand attrs2.brand,
                  keyTally attrs1.storage attrs2.storage,
                  keyTally attrs1.ram attrs2.ram,
                  keyTally attrs1.model attrs2.model]
  let total_attributes := (tallies.map Prod.fst).sum
  let attribute_matches := (tallies.map Prod.snd).sum
  if 0 < total_attributes then (attribute_matches : ℚ) / (total_attributes : ℚ) else 0

/-- `_calculate_product_similarity(title1, title2)`. -/
def calculate_product_similarity (title1 title2 : String) : ℚ :=
  attribute_similarity title1 title2 * (7/10) + sequence_similarity title1 title2 * (3/10)

/-- `_is_same_product(original_title, result_title, threshold)`; the source
default for `threshold` is `0.65`. -/
def is_same_product (original_title result_title : String) (threshold : ℚ) : Bool :=
  decide (threshold ≤ calculate_product_similarity original_title result_title)

/-- A normalized offer (`_normalize_result` output); presentation-only fields
(`url`, `delivery`, `thumbnail`) omitted, see the section comment. -/
structure Offer where
  title : String
  price : ℚ
  currency : String
  seller : String
  platform : String
  rating : ℚ
  reviews : ℚ
  in_stock : Bool
deriving DecidableEq, Repr

/-- `_extract_platform_from_source(source)`. -/
def extract_platform_from_source (source : String) : String :=
  let source_lower := pyLower source
  if pyIn "amazon" source_lower then "amazon"
  else if pyIn "flipkart" source_lower then "flipkart"
  else if pyIn "ebay" source_lower then "ebay"
  else if pyIn "walmart" source_lower then "walmart"
  else if pyIn "myntra" source_lower then "myntra"
  else if pyIn "snapdeal" source_lower then "snapdeal"
  else if pyIn "croma" source_lower then "croma"
  else if pyIn "tata" source_lower then "tata"
  else source_lower

/-- `_parse_currency(price_str)`. -/
def parse_currency (price_str : String) : String :=
  if pyIn "₹" price_str then "INR"
  else if pyIn "$" price_str then "USD"
  else if pyIn "€" price_str then "EUR"
  else if pyIn "£" price_str then "GBP"
  else "INR"

/-- A raw shopping result from the search API; only the keys read by
`_normalize_result` for modelled `Offer` fields are kept. -/
structure RawShopItem where
  title : Option String
  price : Option String
  extracted_price : Option ℚ
  source : Option String
  rating : Option ℚ
  ratingCount : Option ℚ
  reviews : Option ℚ
deriving DecidableEq, Repr

/-- `_normalize_result(result)`.  The Python `try` can only fail on the two
`float(...)` conversions, both of which are modelled totally (parse failure
already yields `0`), so the `return None` branch is unreachable and the model
is total. -/
def normalize_result (result : RawShopItem) : Offer :=
  let price_str := pyGet result.price "0"
  let ep0 : ℚ := result.extracted_price.getD 0
  -- `if not extracted_price and price_str:` — 0 and absent are both falsy
  let extracted_price : ℚ :=
    if ep0 = 0 && pyTruthy price_str then
      match pyFloatOfDigitsDots (keepDigitsDots price_str) with
      | some v => v
      | none => 0
    else ep0
  let seller := pyGet result.source "N/A"
  { title := pyGet result.title "N/A"
    -- `float(extracted_price) if extracted_price else 0.0` is the identity here
    price := extracted_price
    currency := parse_currency price_str
    seller := seller
    platform := extract_platform_from_source seller
    rating := result.rating.getD 0
    reviews := (result.ratingCount <|> result.reviews).getD 0
    in_stock := true }

/-- `group_by_platform(results)`: an insertion-ordered dict from platform to
offers, modelled as an association list. -/
def group_by_platform (results : List Offer) : List (String × List Offer) :=
  results.foldl (fun grouped r =>
    if grouped.any (fun p => p.1 = r.platform) then
      grouped.map (fun p => if p.1 = r.platform then (p.1, p.2 ++ [r]) else p)
    else grouped ++ [(r.platform, [r])]) []

/-- The `price_stats` record. -/
structure PriceStats where
  min_price : ℚ
  max_price : ℚ
  avg_price : ℚ
  median_price : ℚ
  total_results : Nat
deriving DecidableEq, Repr

/-- The all-zero stats returned for an empty price list. -/
def zeroStats : PriceStats := ⟨0, 0, 0, 0, 0⟩

/-- `min(prices)` for a non-empty list (0 as an unreachable default). -/
def pyMin : List ℚ → ℚ
  | [] => 0
  | x :: xs => xs.foldl min x

/-- `max(prices)` for a non-empty list (0 as an unreachable default). -/
def pyMax : List ℚ → ℚ
  | [] => 0
  | x :: xs => xs.foldl max x

/-- `statistics.median(prices)`: middle of the sorted list, averaging the two
middle values for an even length. -/
def pyMedian (prices : List ℚ) : ℚ :=
  let sorted := List.insertionSort (· ≤ ·) prices
  let n := sorted.length
  if n % 2 = 1 then sorted.getD (n / 2) 0
  else (sorted.getD (n / 2 - 1) 0 + sorted.getD (n / 2) 0) / 2

/-- `calculate_price_stats(results)`. -/
def calculate_price_stats (results : List Offer) : PriceStats :=
  if results.isEmpty then zeroStats
  else
    let prices := results.map (·.price)
    { min_price := pyMin prices
      max_price := pyMax prices
      avg_price := prices.sum / (prices.length : ℚ)
      median_price := pyMedian prices
      total_results := prices.length }

/-- The `best_deal` record (`url` omitted, see the section comment). -/
structure BestDeal where
  platform : String
  title : String
  price : ℚ
  currency : String
  seller : String
  rating : ℚ
  savings : ℚ
  savings_percent : ℚ
deriving DecidableEq, Repr

/-- The sort key `lambda x: (x["price"], -x["rating"])` as a total preorder:
price ascending, rating descending. -/
def offerLE (x y : Offer) : Prop :=
  x.price < y.price ∨ (x.price = y.price ∧ y.rating ≤ x.rating)

instance : DecidableRel offerLE := fun x y => by
  unfold offerLE; infer_instance

instance : IsTotal Offer offerLE := ⟨by
  intro a b
  rcases lt_trichotomy a.price b.price with h | h | h
  · exact Or.inl (Or.inl h)
  · rcases le_total b.rating a.rating with hr | hr
    · exact Or.inl (Or.inr ⟨h, hr⟩)
    · exact Or.inr (Or.inr ⟨h.symm, hr⟩)
  · exact Or.inr (Or.inl h)⟩

instance : IsTrans Offer offerLE := ⟨by
  intro a b c hab hbc
  rcases hab with h | ⟨he, hr⟩
  · rcases hbc with h' | ⟨he', _⟩
    · exact Or.inl (h.trans h')
    · exact Or.inl (he' ▸ h)
  · rcases hbc with h' | ⟨he', hr'⟩
    · exact Or.inl (he ▸ h')
    · exact Or.inr ⟨he.trans he', hr'.trans hr⟩⟩

/-- A default offer used only as the (unreachable) `headD`/`getLastD`
fallback on lists proven non-empty. -/
def dummyOffer : Offer := ⟨"", 0, "", "", "", 0, 0, true⟩

/-- Round to the nearest integer, ties to even (the rounding used by Python's
`round`; floats modelled as exact rationals). -/
def roundHalfEvenInt (y : ℚ) : ℤ :=
  if y - (⌊y⌋ : ℚ) < 1/2 then ⌊y⌋
  else if 1/2 < y - (⌊y⌋ : ℚ) then ⌊y⌋ + 1
  else if ⌊y⌋ % 2 = 0 then ⌊y⌋ else ⌊y⌋ + 1

/-- Python `round(x, 2)`: round to 2 decimal places, ties to even. -/
def round2 (x : ℚ) : ℚ := (roundHalfEvenInt (x * 100) : ℚ) / 100

/-- The non-empty branch of `find_best_deal` (split out so that the theorems
can name the constructed record): sort by (price asc, rating desc), take the
head as the best and the last's price as the maximum. -/
def bestDealOf (results : List Offer) : BestDeal :=
  let sorted_results := List.insertionSort offerLE results
  let best := sorted_results.headD dummyOffer
  let max_price := (sorted_results.getLastD dummyOffer).price
  let savings := max_price - best.price
  let savings_percent := if 0 < max_price then savings / max_price * 100 else 0
  { platform := best.platform
    title := best.title
    price := best.price
    currency := best.currency
    seller := best.seller
    rating := best.rating
    savings := round2 savings
    savings_percent := round2 savings_percent }

/-- `find_best_deal(results)`. -/
def find_best_deal (results : List Offer) : Option BestDeal :=
  if results.isEmpty then none
  else some (bestDealOf results)

/-- The `compare_prices` result record; `error` is only set on a search-error
response. -/
structure CompareResult where
  price_comparison : List (String × List Offer)
  price_stats : PriceStats
  best_deal : Option BestDeal
  total_results : Nat
  error : Option String
deriving DecidableEq, Repr

/-- Lines 464–494 of `compare_prices`: split off the positively-priced subset,
group everything by platform, compute stats and the best deal. -/
def aggregate_offers (normalized_results : List Offer) : CompareResult :=
  let valid_price_results := normalized_results.filter (fun r => decide (0 < r.price))
  let grouped := group_by_platform normalized_results
  let stats := calculate_price_stats valid_price_results
  let best_deal := if !valid_price_results.isEmpty then find_best_deal valid_price_results
                   else none
  { price_comparison := grouped
    price_stats := stats
    best_deal := best_deal
    total_results := normalized_results.length
    error := none }

/-- Lines 441–494 of `compare_prices`: normalization, the source-platform and
same-product filters, then aggregation, starting from the raw shopping list. -/
def compare_prices_core (shopping_results : List RawShopItem)
    (product_name source_platform : String) : CompareResult :=
  let normalized_results := (shopping_results.map normalize_result).filter (fun n =>
    !(n.platform == source_platform) && is_same_product product_name n.title (13/20))
  aggregate_offers normalized_results

/-- The raw response of `search_shopping`: either an `error` key or a
`shopping` list (the `shopping_results` fallback key is collapsed into the
same list). -/
structure ShoppingResponse where
  error : Option String
  shopping : List RawShopItem
deriving DecidableEq, Repr

/-- `compare_prices(product_name, source_platform)` given the outcome of the
`search_shopping` call (`.error` = the network call raised, which propagates
to the caller). -/
def compare_prices (searched : Except String ShoppingResponse)
    (product_name source_platform : String) : Except String CompareResult :=
  match searched with
  | .error e => .error e
  | .ok raw =>
    match raw.error with
    | some err =>
      .ok { price_comparison := [], price_stats := zeroStats, best_deal := none,
            total_results := 0, error := some err }
    | none =>
      if raw.shopping.isEmpty then
        .ok { price_comparison := [], price_stats := zeroStats, best_deal := none,
              total_results := 0, error := none }
      else
        .ok (compare_prices_core raw.shopping product_name source_platform)

/-! ### `web_search.py` — `WebSearchAnalyzer`

Embedded from `backend/src/web_search.py`, from the point where the five
parallel search pipelines (`_run_search_pipelines_parallel`, external I/O)
have produced their formatted category lists.  The prompt templates live in
external text files (`config/prompts/*.txt`) and the generative model is an
external service; both are oracle parameters.  The seven generative
operations are mutually independent and each future's result is stored under
its own key, so the `ThreadPoolExecutor` fan-out/fan-in is modelled by
direct composition. -/

/-- A search-result record flowing through `web_search.py`.  The Python code
passes plain dicts whose key set changes along the pipeline: raw search
results carry a `url` key, while `_filter_and_format` stores the URL under
`link`.  Both keys are optional fields so that `dict.get` with a default is
modelled faithfully. -/
structure SRec where
  title : Option String
  snippet : Option String
  url : Option String
  link : Option String
  source : Option String
  date : Option String
deriving DecidableEq, Repr

/-- The all-`none` record (only an unreachable `headD` fallback). -/
def emptySRec : SRec := ⟨none, none, none, none, none, none⟩

/-- `_is_source_platform_url(url, source_platform)`. -/
def is_source_platform_url (url source_platform : String) : Bool :=
  if !pyTruthy source_platform then false
  else
    let url_lower := pyLower url
    let platform_lower := pyLower source_platform
    if platform_lower == "amazon" then
      pyIn "amazon.in" url_lower || pyIn "amazon.com" url_lower
    else if platform_lower == "flipkart" then pyIn "flipkart.com" url_lower
    else if platform_lower == "ebay" then
      pyIn "ebay.in" url_lower || pyIn "ebay.com" url_lower
    else if platform_lower == "walmart" then pyIn "walmart.com" url_lower
    else if platform_lower == "myntra" then pyIn "myntra.com" url_lower
    else if platform_lower == "snapdeal" then pyIn "snapdeal.com" url_lower
    else false

/-- `_filter_and_format(results, source_platform)`: drop source-platform URLs
and format for the frontend — the `url` key is renamed to `link`. -/
def filter_and_format (results : List SRec) (source_platform : String) : List SRec :=
  results.filterMap (fun result =>
    if pyTruthy source_platform &&
        is_source_platform_url (pyGet result.url "") source_platform then none
    else
      some { title := some (pyGet result.title "")
             snippet := some (pyGet result.snippet "")
             url := none
             link := some (pyGet result.url "")
             source := some (pyGet result.source "")
             date := some (pyGet result.date "") })

/-- A video-review record (the dicts built by `_extract_video_reviews`). -/
structure VideoRec where
  title : String
  url : String
  channel : String
  snippet : String
deriving DecidableEq, Repr

/-- `_extract_video_reviews(results)`: keep entries whose `url` key value
contains a video-host marker.  (Note the pool it is called on consists of
`_filter_and_format` outputs, whose URL sits under `link`.) -/
def extract_video_reviews (results : List SRec) : List VideoRec :=
  results.filterMap (fun result =>
    let url := pyGet result.url ""
    if pyIn "youtube.com" url || pyIn "youtu.be" url then
      some { title := pyGet result.title ""
             url := url
             channel := pyGet result.source ""
             snippet := pyGet result.snippet "" }
    else none)

/-- The external generative layer: the seven prompt templates (external text
files, taking context and product name) and `model.invoke`
(`.error e` = the call raised). -/
structure LLMEnv where
  review_filter_prompt : String → String → String
  reddit_filter_prompt : String → String → String
  news_filter_prompt : String → String → String
  comparison_filter_prompt : String → String → String
  key_findings_prompt : String → String → String
  red_flags_prompt : String → String → String
  sentiment_analysis_prompt : String → String → String
  invoke : String → Except String String

/-- The enumerated, 1-indexed context block built by
`_filter_irrelevant_content`. -/
def filterContext (results : List SRec) (product_name content_type : String) : String :=
  results.enum.foldl (fun ctx p =>
    ctx ++ toString (p.1 + 1) ++ ". Title: " ++ pyGet p.2.title "" ++ "\n" ++
    "   Source: " ++ pyGet p.2.source "" ++ "\n" ++
    "   Snippet: " ++ pyGet p.2.snippet "" ++ "\n\n")
    ("Product: " ++ product_name ++ "\n\n" ++
     "Content Type: " ++ content_type ++ "\n\n" ++ "Content to evaluate:\n\n")

/-- The prompt dispatch of `_filter_irrelevant_content` on `content_type`
(`review` / `reddit` / `news`, any other value meaning `comparison`). -/
def filterPromptFor (env : LLMEnv) (content_type context product_name : String) : String :=
  if content_type == "review" then env.review_filter_prompt context product_name
  else if content_type == "reddit" then env.reddit_filter_prompt context product_name
  else if content_type == "news" then env.news_filter_prompt context product_name
  else env.comparison_filter_prompt context product_name

/-- `_filter_irrelevant_content(results, product_name, content_type)`. -/
def filter_irrelevant_content (env : LLMEnv) (results : List SRec)
    (product_name content_type : String) : List SRec :=
  if results.isEmpty then []
  else
    let context := filterContext results product_name content_type
    let prompt := filterPromptFor env content_type context product_name
    match env.invoke prompt with
    | .error _ => results
    | .ok response =>
      let result_text := pyUpper (pyStrip response)
      if result_text == "NONE" || pyIn "NONE" result_text then []
      else
        let relevant_indices := findAllNats result_text
        (results.enum.filter (fun p => relevant_indices.contains (p.1 + 1))).map Prod.snd

/-- The context block of `summarize_with_llm`: the first 20 results,
enumerated from 1. -/
def keyFindingsContext (search_results : List SRec) (product_name : String) : String :=
  (search_results.take 20).enum.foldl (fun ctx p =>
    ctx ++ toString (p.1 + 1) ++ ". Title: " ++ pyGet p.2.title "" ++ "\n" ++
    "   Source: " ++ pyGet p.2.source "" ++ "\n" ++
    "   Snippet: " ++ pyGet p.2.snippet "" ++ "\n\n")
    ("Product: " ++ product_name ++ "\n\n" ++ "External Search Results:\n\n")

/-- One line of the key-findings response: kept when it starts with a digit,
`-` or `•`; the leading `0123456789.-•) ` characters are stripped; empty
results dropped. -/
def parseFindingLine (line0 : String) : Option String :=
  let line := pyStrip line0
  if pyTruthy line &&
      ((line.data.headD ' ').isDigit || pyStartswith "-" line || pyStartswith "•" line) then
    let finding := pyStrip (pyLstrip "0123456789.-•) ".data line)
    if pyTruthy finding then some finding else none
  else none

/-- `summarize_with_llm(search_results, product_name)`. -/
def summarize_with_llm (env : LLMEnv) (search_results : List SRec)
    (product_name : String) : List String :=
  if search_results.isEmpty then ["No external information found"]
  else
    let context := keyFindingsContext search_results product_name
    let prompt := env.key_findings_prompt context product_name
    match env.invoke prompt with
    | .error e => ["Error generating summary: " ++ e]
    | .ok response =>
      let findings_text := pyStrip response
      let findings := (pySplitChar '\n' findings_text).filterMap parseFindingLine
      if findings.isEmpty then ["Analysis completed but no specific findings extracted"]
      else findings

/-- The context block of `detect_red_flags`: the first 20 results. -/
def redFlagsContext (search_results : List SRec) (product_name : String) : String :=
  (search_results.take 20).enum.foldl (fun ctx p =>
    ctx ++ toString (p.1 + 1) ++ ". " ++ pyGet p.2.title "" ++ "\n" ++
    "   " ++ pyGet p.2.snippet "" ++ "\n\n")
    ("Product: " ++ product_name ++ "\n\n" ++ "Search Results to Analyze:\n\n")

/-- One line of the red-flags response: kept when it carries the warning
emoji or the words "warning" / "red flag"; the emoji is removed; lines that
then start with "no" are dropped. -/
def parseRedFlagLine (line0 : String) : Option String :=
  let line := pyStrip line0
  if pyTruthy line && (pyIn "⚠️" line || pyIn "warning" (pyLower line) ||
      pyIn "red flag" (pyLower line)) then
    let flag := pyStrip (pyReplace line "⚠️" "")
    if pyTruthy flag && !(pyStartswith "no" (pyLower flag)) then some flag else none
  else none

/-- `detect_red_flags(search_results, product_name)`. -/
def detect_red_flags (env : LLMEnv) (search_results : List SRec)
    (product_name : String) : List String :=
  if search_results.isEmpty then []
  else
    let prompt := env.red_flags_prompt (redFlagsContext search_results product_name)
      product_name
    match env.invoke prompt with
    | .error _ => []
    | .ok response =>
      let flags_text := pyStrip response
      if pyIn "no major red flags" (pyLower flags_text) ||
          pyIn "no significant red flags" (pyLower flags_text) then []
      else (pySplitChar '\n' flags_text).filterMap parseRedFlagLine

/-- The sentiment record returned by `_analyze_sentiment`. -/
structure SentimentResult where
  sentiment : String
  confidence : String
  summary : String
deriving DecidableEq, Repr

/-- The context block of `_analyze_sentiment`: the first **15** results. -/
def sentimentContext (search_results : List SRec) (product_name : String) : String :=
  (search_results.take 15).foldl (fun ctx r =>
    ctx ++ "- " ++ pyGet r.title "" ++ ": " ++ pyGet r.snippet "" ++ "\n")
    ("Product: " ++ product_name ++ "\n\n")

/-- `re.search(r'\x7b[^\x7d]+\x7d', s)`: the first substring made of an
opening brace, one or more non-closing-brace characters, and a closing
brace. -/
def firstBraceGroup (s : String) : Option String :=
  searchPos braceAt s.data
where
  braceAt : List Char → Option String
    | [] => none
    | c :: rest =>
      if c = '\x7b' then
        let mid := rest.takeWhile (fun d => d ≠ '\x7d')
        if mid.isEmpty then none
        else
          match rest.drop mid.length with
          | d :: _ => if d = '\x7d' then some (String.mk (c :: (mid ++ [d]))) else none
          | [] => none
      else none

/-- Last-occurrence lookup, like a Python dict built from repeated keys. -/
def jsonGet (kvs : List (String × String)) (k default : String) : String :=
  match kvs.reverse.find? (fun p => p.1 == k) with
  | some p => p.2
  | none => default

/-- A model of `json.loads` restricted to the shape the brace regex can
produce: one flat object with escape-free string keys and values (commas and
colons only as separators).  Inputs outside this shape — which `json.loads`
may still accept, e.g. numeric values — are mapped to `none`; no verified
property depends on this branch. -/
def jsonFlatStringObject (s : String) : Option (List (String × String)) :=
  let cs := (pyStrip s).data
  match cs with
  | c :: rest =>
    if c = '\x7b' ∧ rest.getLastD ' ' = '\x7d' then
      (rest.dropLast.splitOn ',').mapM (fun part =>
        match part.splitOn ':' with
        | [k, v] => do
          let key ← parseJString k
          let val ← parseJString v
          some (key, val)
        | _ => none)
    else none
  | [] => none
where
  parseJString (p : List Char) : Option String :=
    let t := (p.dropWhile Char.isWhitespace).reverse.dropWhile Char.isWhitespace |>.reverse
    match t with
    | q :: body =>
      if q = '"' ∧ body.getLastD ' ' = '"' ∧ !body.isEmpty ∧
          (body.dropLast.all (fun d => d ≠ '"')) then
        some (String.mk body.dropLast)
      else none
    | [] => none

/-- A stand-in for the `json.JSONDecodeError` text that lands in the
`except` branch when `json.loads` raises. -/
def jsonDecodeErrorText : String := "Expecting value"

/-- `_analyze_sentiment(search_results, product_name)`. -/
def analyze_sentiment (env : LLMEnv) (search_results : List SRec)
    (product_name : String) : SentimentResult :=
  if search_results.isEmpty then
    ⟨"unknown", "low", "No external data available for sentiment analysis"⟩
  else
    let prompt := env.sentiment_analysis_prompt
      (sentimentContext search_results product_name) product_name
    match env.invoke prompt with
    | .error e => ⟨"unknown", "low", "Error analyzing sentiment: " ++ e⟩
    | .ok response =>
      let result_text := pyStrip response
      match firstBraceGroup result_text with
      | some grp =>
        match jsonFlatStringObject grp with
        | some sentiment_data =>
          ⟨jsonGet sentiment_data "sentiment" "mixed",
           jsonGet sentiment_data "confidence" "medium",
           jsonGet sentiment_data "summary" "Mixed opinions found across sources"⟩
        | none =>
          -- `json.loads` raised inside the `try`: the outer `except` returns
          -- the unknown/low record carrying the exception text
          ⟨"unknown", "low", "Error analyzing sentiment: " ++ jsonDecodeErrorText⟩
      | none =>
        let sentiment :=
          if pyIn "positive" (pyLower result_text) then "positive"
          else if pyIn "negative" (pyLower result_text) then "negative"
          else "mixed"
        ⟨sentiment, "medium", String.mk (result_text.data.take 200)⟩

/-- The result record of `analyze_product`, with the `metadata` sub-dict
inlined as the trailing count fields. -/
structure AnalysisResult where
  external_reviews : List SRec
  comparison_articles : List SRec
  issue_discussions : List SRec
  reddit_discussions : List SRec
  news_articles : List SRec
  video_reviews : List VideoRec
  key_findings : List String
  red_flags : List String
  overall_sentiment : SentimentResult
  total_sources : Nat
  review_count : Nat
  comparison_count : Nat
  issue_count : Nat
  reddit_count : Nat
  news_count : Nat
  video_count : Nat
deriving DecidableEq, Repr

/-- `analyze_product(product_name, source_platform)` from the point where
the five category searches have returned (their formatted lists are the
first five arguments).  The issue/complaint category is never passed to the
relevance filter. -/
def analyze_product (env : LLMEnv)
    (external_reviews comparison_articles issue_discussions
      reddit_discussions news_articles : List SRec)
    (product_name : String) : AnalysisResult :=
  let all_results := external_reviews ++ comparison_articles ++ issue_discussions ++
    reddit_discussions ++ news_articles
  let video_reviews := extract_video_reviews all_results
  let f_reviews := filter_irrelevant_content env external_reviews product_name "review"
  let f_comparisons := filter_irrelevant_content env comparison_articles product_name "comparison"
  let f_reddit := filter_irrelevant_content env reddit_discussions product_name "reddit"
  let f_news := filter_irrelevant_content env news_articles product_name "news"
  { external_reviews := f_reviews
    comparison_articles := f_comparisons
    issue_discussions := issue_discussions
    reddit_discussions := f_reddit
    news_articles := f_news
    video_reviews := video_reviews
    key_findings := summarize_with_llm env all_results product_name
    red_flags := detect_red_flags env all_results product_name
    overall_sentiment := analyze_sentiment env all_results product_name
    total_sources := all_results.length
    review_count := f_reviews.length
    comparison_count := f_comparisons.length
    issue_count := issue_discussions.length
    reddit_count := f_reddit.length
    news_count := f_news.length
    video_count := video_reviews.length }

/-! ### `workflow_orchestrator.py` — `ProductWorkflowOrchestrator`

Embedded from `backend/src/workflow_orchestrator.py`.  The LangGraph graph is
linearized along its edges: `check_cache` routes to END / `analyze_with_llm`
/ `scrape_amazon`; after the scrape the two branch nodes both read the
post-scrape snapshot and their partial update dicts are merged in sequence;
then `combine_results → save_to_cache → analyze_with_llm`.  Channel
semantics are modelled exactly: `errors` is reducer-merged
(`old ++ returned`, so a node that returns the whole mutated state
re-appends the errors it was handed), the four completion booleans are
`or`-merged, every other key is last-value.  The scraper, the Redis client,
the shopping search, the full `analyze_product` call of the web branch and
the analysis LLM chain are oracle parameters (`.error` = that call raised).
Redis `setex` calls are additionally logged as a write trace so that the
cache-layout theorems can inspect them. -/

/-- One flattened competitor-price entry built by `_combine_results_node`
(the pass-through `url` is omitted like everywhere in this model). -/
structure CompetitorPrice where
  site : String
  price : String
  availability : String
deriving DecidableEq, Repr

/-- The product dict: the scraped base fields read by the orchestrator plus
the three enrichment keys added by `_combine_results_node` (keys modelled
only when some orchestrator branch reads or writes them). -/
structure PData where
  title : Option String
  platform : Option String
  asin : Option String
  product_id : Option String
  price_comparison : Option CompareResult
  competitor_prices : Option (List CompetitorPrice)
  web_search_analysis : Option AnalysisResult
deriving DecidableEq, Repr

/-- A cached value: either the JSON dump of a product dict or a plain
string (serialization itself is not modelled — the cache stores the value
whole either way). -/
inductive CVal where
  | jsonData : PData → CVal
  | str : String → CVal
deriving DecidableEq, Repr

/-- `f"..{value}.."` for an optional string: Python renders `None` as the
string `"None"`. -/
def pyStrOpt : Option String → String
  | some s => s
  | none => "None"

/-- Reading a cached analysis entry (`bytes.decode` — analysis entries are
always plain strings; a JSON blob under the analysis key is outside any
reachable run and reads as empty). -/
def strOfCVal : CVal → String
  | .str s => s
  | .jsonData _ => ""

/-- Stand-in for the `AttributeError` text of `None.get(...)`. -/
def noneTypeGetMessage : String := "NoneType object has no attribute get"

/-- Stand-in for the `KeyError` text of `state["amazon_data"]["platform"]`. -/
def keyErrorPlatformMessage : String := "platform"

/-- Stand-in for the `TypeError` of item-assignment on `None`. -/
def typeErrorNoneAssignMessage : String :=
  "NoneType object does not support item assignment"

/-- `python -c`: `re.search(r'[\d,]+\.?\d*', s)` at one position. -/
def numericPriceAt (cs : List Char) : Option String :=
  let run := cs.takeWhile (fun c => c.isDigit || c = ',')
  if run.isEmpty then none
  else
    match cs.drop run.length with
    | '.' :: rest2 => some (String.mk (run ++ '.' :: rest2.takeWhile Char.isDigit))
    | _ => some (String.mk run)

/-- `get_numeric_price(item)` in `_combine_results_node`: parse the first
`[\d,]+\.?\d*` group of the formatted price string, commas removed;
`none` models `float('inf')` (no match).  The formatted strings this is
applied to always contain a digit, so the all-comma `ValueError` corner of
the regex is unreachable. -/
def get_numeric_price (price_str : String) : Option ℚ :=
  match searchPos numericPriceAt price_str.data with
  | some m => pyFloatOfDigitsDots ⟨m.data.filter (fun c => c ≠ ',')⟩
  | none => none

/-- Comma-grouping helper: digits given least-significant first. -/
def groupThousandsGo (l : List Char) : List Char :=
  if l.length ≤ 3 then l
  else l.take 3 ++ ',' :: groupThousandsGo (l.drop 3)
termination_by l.length
decreasing_by
  simp only [List.length_drop]
  omega

/-- Decimal digits of `n` grouped in threes with commas (`f"{n:,}"`). -/
def groupThousands (n : Nat) : String :=
  ⟨(groupThousandsGo (toString n).data.reverse).reverse⟩

/-- `f"{x:,.0f}"`: round to an integer (ties to even), comma-grouped. -/
def format0f (x : ℚ) : String :=
  let r := roundHalfEvenInt x
  (if r < 0 then "-" else "") ++ groupThousands r.natAbs

/-- `f"{x:,.2f}"`: two decimals (ties to even), integer part comma-grouped. -/
def format2f (x : ℚ) : String :=
  let r := roundHalfEvenInt (x * 100)
  let a := r.natAbs
  (if r < 0 then "-" else "") ++ groupThousands (a / 100) ++ "." ++
    (if a % 100 < 10 then "0" else "") ++ toString (a % 100)

/-- The competitor-price entry for one offer. -/
def competitorEntry (product : Offer) : CompetitorPrice :=
  let price_num := product.price
  let currency := product.currency
  let price_str :=
    if currency == "INR" then
      if price_num ≠ 0 then "₹" ++ format0f price_num else "N/A"
    else
      if price_num ≠ 0 then currency ++ " " ++ format2f price_num else "N/A"
  { site := product.seller
    price := price_str
    availability := if product.in_stock then "In Stock" else "Out of Stock" }

/-- The sort key order of `competitor_prices.sort(key=get_numeric_price)`:
ascending numeric price with unparsable prices (`float('inf')`) last. -/
def cpLE (a b : CompetitorPrice) : Prop :=
  match get_numeric_price a.price, get_numeric_price b.price with
  | some x, some y => x ≤ y
  | some _, none => True
  | none, some _ => False
  | none, none => True

instance : DecidableRel cpLE := fun a b => by
  unfold cpLE
  rcases get_numeric_price a.price <;> rcases get_numeric_price b.price <;>
    simp <;> infer_instance

/-- The competitor-price flattening of `_combine_results_node`: walk the
platform groups in insertion order, format every offer, sort by parsed
numeric price, keep the five cheapest. -/
def format_competitor_prices (price_comparison : List (String × List Offer)) :
    List CompetitorPrice :=
  let competitor_prices :=
    price_comparison.foldl (fun acc p => acc ++ p.2.map competitorEntry) []
  (List.insertionSort cpLE competitor_prices).take 5

/-- The workflow state (`ProductWorkflowState`). -/
structure WState where
  url : String
  asin : Option String
  amazon_data : Option PData
  price_comparison_data : Option CompareResult
  web_search_data : Option AnalysisResult
  product_data : Option PData
  analysis : Option String
  errors : List String
  scraping_complete : Bool
  price_comparison_complete : Bool
  web_search_complete : Bool
  analysis_complete : Bool
deriving DecidableEq, Repr

/-- The external scraping adapter. -/
structure Scraper where
  extract_product_id : String → Option String
  platform_name : String
  scrape_product : String → Except String PData

/-- One logged `setex` call. -/
structure CacheWrite where
  key : String
  ttl : Nat
  value : CVal
deriving DecidableEq, Repr

/-- The orchestrator's external collaborators. -/
structure OrchEnv where
  get_scraper : String → Except String Scraper
  cache_get : String → Except String (Option CVal)
  cache_setex : String → Nat → CVal → Except String Unit
  search_shopping : String → Except String ShoppingResponse
  web_analyze : String → String → Except String AnalysisResult
  analysis_llm : PData → Except String String

/-- Channel merge for a node that returned the whole (mutated) state dict:
`errors` is reducer-merged, the booleans are `or`-merged, everything else is
last-value. -/
def mergeFull (old ret : WState) : WState :=
  { url := ret.url
    asin := ret.asin
    amazon_data := ret.amazon_data
    price_comparison_data := ret.price_comparison_data
    web_search_data := ret.web_search_data
    product_data := ret.product_data
    analysis := ret.analysis
    errors := old.errors ++ ret.errors
    scraping_complete := old.scraping_complete || ret.scraping_complete
    price_comparison_complete := old.price_comparison_complete || ret.price_comparison_complete
    web_search_complete := old.web_search_complete || ret.web_search_complete
    analysis_complete := old.analysis_complete || ret.analysis_complete }

/-- The partial update dict returned by a fan-out branch node: the
completion flag, the data key when present, the errors when present. -/
structure BranchUpdate (α : Type) where
  complete : Bool
  data : Option α
  errors : List String
deriving Repr

/-- Merge the price branch's update dict. -/
def apply_price_update (s : WState) (u : BranchUpdate CompareResult) : WState :=
  { s with
    price_comparison_complete := s.price_comparison_complete || u.complete
    price_comparison_data :=
      match u.data with
      | some d => some d
      | none => s.price_comparison_data
    errors := s.errors ++ u.errors }

/-- Merge the web branch's update dict. -/
def apply_web_update (s : WState) (u : BranchUpdate AnalysisResult) : WState :=
  { s with
    web_search_complete := s.web_search_complete || u.complete
    web_search_data :=
      match u.data with
      | some d => some d
      | none => s.web_search_data
    errors := s.errors ++ u.errors }

/-- `_check_cache_node`.  Every collaborator failure is caught and logged as
`"Cache check error: …"`; partial mutations made before the failing call
(setting `asin`) persist, as in the Python `try` body. -/
def check_cache_node (env : OrchEnv) (state : WState) : WState :=
  match env.get_scraper state.url with
  | .error e => { state with errors := state.errors ++ ["Cache check error: " ++ e] }
  | .ok scraper =>
    let product_id := scraper.extract_product_id state.url
    let state := { state with asin := product_id }
    match product_id with
    | none => state
    | some pid =>
      if !pyTruthy pid then state
      else
        let cache_key := "product:" ++ pid
        match env.cache_get cache_key with
        | .error e => { state with errors := state.errors ++ ["Cache check error: " ++ e] }
        | .ok cached_json =>
          match env.cache_get (cache_key ++ ":analysis") with
          | .error e => { state with errors := state.errors ++ ["Cache check error: " ++ e] }
          | .ok cached_analysis =>
            match cached_json with
            | none => state
            | some (CVal.str _) =>
              -- `json.loads` of a non-JSON blob raises inside the `try`
              { state with errors := state.errors ++
                  ["Cache check error: " ++ jsonDecodeErrorText] }
            | some (CVal.jsonData cached_data) =>
              let has_price_comp := cached_data.price_comparison.isSome ||
                cached_data.competitor_prices.isSome
              let has_web_search := cached_data.web_search_analysis.isSome
              -- both comparer objects are always constructed and truthy, so
              -- both sub-records are required
              if has_price_comp && has_web_search then
                let state := { state with
                  product_data := some cached_data
                  scraping_complete := true
                  price_comparison_complete := true
                  web_search_complete := true }
                match cached_analysis with
                | some ca => { state with
                    analysis := some (strOfCVal ca)
                    analysis_complete := true }
                | none => state
              else state

/-- `_should_skip_fetching` (dict truthiness of `product_data` modelled as
presence; a scrape returning a completely empty dict is not distinguished). -/
def should_skip_fetching (state : WState) : String :=
  match state.product_data with
  | some _ =>
    if state.analysis_complete && pyTruthy (state.analysis.getD "") then "fully_cached"
    else "data_cached"
  | none => "fetch"

/-- `_scrape_amazon_node`: factory and scrape failures are both caught by
the same handler; completion is set even on failure. -/
def scrape_amazon_node (env : OrchEnv) (state : WState) : WState :=
  match env.get_scraper state.url with
  | .error e =>
    { state with
      errors := state.errors ++ ["Scraping error: " ++ e]
      scraping_complete := true }
  | .ok scraper =>
    match scraper.scrape_product state.url with
    | .error e =>
      { state with
        errors := state.errors ++ ["Scraping error: " ++ e]
        scraping_complete := true }
    | .ok product_data =>
      { state with
        amazon_data := some product_data
        asin := pyOrStr product_data.asin product_data.product_id
        scraping_complete := true }

/-- `_price_comparison_node`: reads the post-scrape snapshot and returns a
partial update dict; `state["amazon_data"]` being `None` or lacking the
`platform` key raises inside the `try`. -/
def price_comparison_node (env : OrchEnv) (state : WState) :
    BranchUpdate CompareResult :=
  match state.amazon_data with
  | none => ⟨true, none, ["Price comparison error: " ++ noneTypeGetMessage]⟩
  | some ad =>
    let product_title := pyGet ad.title ""
    match ad.platform with
    | none => ⟨true, none, ["Price comparison error: " ++ keyErrorPlatformMessage]⟩
    | some source_platform =>
      if pyTruthy product_title then
        match compare_prices (env.search_shopping product_title)
            product_title source_platform with
        | .ok price_data => ⟨true, some price_data, []⟩
        | .error e => ⟨true, none, ["Price comparison error: " ++ e]⟩
      else ⟨true, none, []⟩

/-- `_web_search_node`: the full `analyze_product(title, platform)` call
(searches and generative calls inside) is the oracle `env.web_analyze`. -/
def web_search_node (env : OrchEnv) (state : WState) :
    BranchUpdate AnalysisResult :=
  match state.amazon_data with
  | none => ⟨true, none, ["Web search error: " ++ noneTypeGetMessage]⟩
  | some ad =>
    let product_title := pyGet ad.title ""
    match ad.platform with
    | none => ⟨true, none, ["Web search error: " ++ keyErrorPlatformMessage]⟩
    | some source_platform =>
      if pyTruthy product_title then
        match env.web_analyze product_title source_platform with
        | .ok web_data => ⟨true, some web_data, []⟩
        | .error e => ⟨true, none, ["Web search error: " ++ e]⟩
      else ⟨true, none, []⟩

/-- `_combine_results_node` — the one node without a `try`: item-assignment
on a `None` base dict would raise out of the graph (`.error`; proven
unreachable in `C1_run_degrades`). -/
def combine_results_node (state : WState) : Except String WState :=
  match state.price_comparison_data, state.web_search_data, state.amazon_data with
  | none, none, pd => .ok { state with product_data := pd }
  | some _, _, none => .error typeErrorNoneAssignMessage
  | none, some _, none => .error typeErrorNoneAssignMessage
  | some pcd, w, some pd =>
    let pd1 := { pd with
      price_comparison := some pcd
      competitor_prices := some (format_competitor_prices pcd.price_comparison) }
    let pd2 :=
      match w with
      | some wsd => { pd1 with web_search_analysis := some wsd }
      | none => pd1
    .ok { state with product_data := some pd2 }
  | none, some wsd, some pd =>
    .ok { state with product_data := some { pd with web_search_analysis := some wsd } }

/-- `_save_to_cache_node`: one whole-entry `setex` of the JSON dump under
`product:{asin}` with the fixed 24-hour TTL; skipped without data or asin;
failures logged as `"Cache save error: …"`. -/
def save_to_cache_node (env : OrchEnv) (state : WState) : WState × List CacheWrite :=
  match state.product_data with
  | none => (state, [])
  | some pd =>
    match state.asin with
    | none => (state, [])
    | some asin =>
      if pyTruthy asin then
        let cache_key := "product:" ++ asin
        match env.cache_setex cache_key 86400 (CVal.jsonData pd) with
        | .ok _ => (state, [⟨cache_key, 86400, CVal.jsonData pd⟩])
        | .error e =>
          ({ state with errors := state.errors ++ ["Cache save error: " ++ e] }, [])
      else (state, [])

/-- `_analyze_with_llm_node`: build the analysis via the LLM chain; on
success and a non-empty analysis string, `setex` it whole under
`product:{asin}:analysis` with the same fixed TTL (a missing asin renders as
the string `"None"`); every failure in the `try` — including a `None`
`product_data` or the `setex` itself — appends `"Analysis error: …"`. -/
def analyze_with_llm_node (env : OrchEnv) (state : WState) : WState × List CacheWrite :=
  match state.product_data with
  | none =>
    ({ state with
       errors := state.errors ++ ["Analysis error: " ++ noneTypeGetMessage]
       analysis_complete := true }, [])
  | some pd =>
    match env.analysis_llm pd with
    | .error e =>
      ({ state with
         errors := state.errors ++ ["Analysis error: " ++ e]
         analysis_complete := true }, [])
    | .ok analysis_text =>
      let state := { state with analysis := some analysis_text }
      if pyTruthy analysis_text then
        let key := "product:" ++ pyStrOpt state.asin ++ ":analysis"
        match env.cache_setex key 86400 (CVal.str analysis_text) with
        | .ok _ =>
          ({ state with analysis_complete := true }, [⟨key, 86400, CVal.str analysis_text⟩])
        | .error e =>
          ({ state with
             errors := state.errors ++ ["Analysis error: " ++ e]
             analysis_complete := true }, [])
      else ({ state with analysis_complete := true }, [])

/-- The initial `ProductWorkflowState`. -/
def initial_state (url : String) : WState :=
  ⟨url, none, none, none, none, none, none, [], false, false, false, false⟩

/-- The record returned by `run`: on the exception branch (`success = false`)
`data` and `analysis` are absent and `error` is set.  `writes` is the model's
log of the `setex` calls the run issued. -/
structure RunResult where
  success : Bool
  data : Option PData
  analysis : Option String
  error : Option String
  errors : List String
  writes : List CacheWrite
deriving DecidableEq, Repr

/-- The state after the scrape node's full-state return is channel-merged. -/
def scrape_merged (env : OrchEnv) (s1 : WState) : WState :=
  mergeFull s1 (scrape_amazon_node env s1)

/-- The state after both fan-out branches (each reading the post-scrape
snapshot) have had their update dicts channel-merged in sequence. -/
def branches_merged (env : OrchEnv) (s1 : WState) : WState :=
  apply_web_update
    (apply_price_update (scrape_merged env s1)
      (price_comparison_node env (scrape_merged env s1)))
    (web_search_node env (scrape_merged env s1))

/-- The `fetch` route of the graph:
`scrape_amazon → (get_price_comparison ∥ get_web_search) → combine_results →
save_to_cache → analyze_with_llm`.  An exception escaping `combine_results`
(the node without a `try`) aborts the graph and surfaces in `run`'s
`except` branch. -/
def fetch_path (env : OrchEnv) (s1 : WState) : RunResult :=
  let s4 := branches_merged env s1
  match combine_results_node s4 with
  | .error e => ⟨false, none, none, some e, [e], []⟩
  | .ok ret =>
    let s5 := mergeFull s4 ret
    let s6 := mergeFull s5 (save_to_cache_node env s5).1
    let s7 := mergeFull s6 (analyze_with_llm_node env s6).1
    ⟨true, s7.product_data, s7.analysis, none, s7.errors,
     (save_to_cache_node env s5).2 ++ (analyze_with_llm_node env s6).2⟩

/-- `run(url)`: the compiled graph, linearized (see the section comment). -/
def run (env : OrchEnv) (url : String) : RunResult :=
  let s1 := mergeFull (initial_state url) (check_cache_node env (initial_state url))
  let route := should_skip_fetching s1
  if route == "fully_cached" then
    ⟨true, s1.product_data, s1.analysis, none, s1.errors, []⟩
  else if route == "data_cached" then
    let r := analyze_with_llm_node env s1
    let s2 := mergeFull s1 r.1
    ⟨true, s2.product_data, s2.analysis, none, s2.errors, r.2⟩
  else
    fetch_path env s1

/-! ### Claim-side comparison definitions (refinement checks) -/

/-- Attribute agreement as claim C5 words it: over the set brand, storage
capacity, RAM, **color**, and model token.  To be compared with the code's
`attribute_similarity`, whose loop skips `color`. -/
def claimedAttributeAgreementWithColor (title1 title2 : String) : ℚ :=
  let a1 := extract_product_attributes title1
  let a2 := extract_product_attributes title2
  let tallies := [keyTally a1.brand a2.brand,
                  keyTally a1.storage a2.storage,
                  keyTally a1.ram a2.ram,
                  keyTally a1.color a2.color,
                  keyTally a1.model a2.model]
  let total := (tallies.map Prod.fst).sum
  let matched := (tallies.map Prod.snd).sum
  if 0 < total then (matched : ℚ) / (total : ℚ) else 0

/-- The final score as claim C5 words it (color included in the agreement). -/
def claimedSimilarityWithColor (title1 title2 : String) : ℚ :=
  claimedAttributeAgreementWithColor title1 title2 * (7/10) +
    sequence_similarity title1 title2 * (3/10)

/-- The specification text of claim C8 for the best deal over a non-empty
positively-priced offer list: selection by (price asc, rating desc), savings
and savings-percent arithmetic (rounded to 2 decimals as the code does). -/
def BestDealSpec (results : List Offer) : Prop :=
  ∃ bd, find_best_deal results = some bd ∧
    (∃ o ∈ results, bd.platform = o.platform ∧ bd.title = o.title ∧
      bd.price = o.price ∧ bd.currency = o.currency ∧ bd.seller = o.seller ∧
      bd.rating = o.rating) ∧
    (∀ o ∈ results, bd.price < o.price ∨ (bd.price = o.price ∧ o.rating ≤ bd.rating)) ∧
    (∃ M : ℚ, (∀ o ∈ results, o.price ≤ M) ∧ (∃ o ∈ results, o.price = M) ∧
      bd.savings = round2 (M - bd.price) ∧ 0 ≤ bd.savings ∧
      bd.savings_percent = round2 (if 0 < M then (M - bd.price) / M * 100 else 0) ∧
      (bd.price = M → bd.savings = 0 ∧ bd.savings_percent = 0))

/-! ### Demonstration inputs used by the witness theorems -/

/-- A concrete positively-priced offer. -/
def demoOffer : Offer := ⟨"demo", 100, "INR", "s", "ebay", 4, 2, true⟩

/-- A concrete two-offer list with distinct prices. -/
def demoOffers : List Offer :=
  [⟨"a", 200, "INR", "s1", "amazon", 3, 0, true⟩,
   ⟨"b", 100, "INR", "s2", "ebay", 4, 0, true⟩]

/-- A concrete raw shopping result. -/
def demoRawItem : RawShopItem :=
  ⟨some "Phone X", some "₹15,999", none, some "Flipkart.com", some 4, none, some 12⟩

/-- Two offers whose price difference (1.125, binary-exact as a float) has
more than two decimal places. -/
def demoRoundOffers : List Offer :=
  [⟨"p", 9/8, "INR", "s1", "ebay", 4, 0, true⟩,
   ⟨"q", 9/4, "INR", "s2", "walmart", 3, 0, true⟩]

/-- A concrete formatted search finding. -/
def demoFinding : SRec :=
  ⟨some "Great phone overview", some "long battery", none,
   some "https://techsite.example/a", some "techsite", some ""⟩

/-- An identity prompt template: the prompt is the context block itself. -/
def demoPromptId : String → String → String := fun context _ => context

/-- A generative layer that answers `"NONE"` to every prompt. -/
def demoEnvNone : LLMEnv :=
  ⟨demoPromptId, demoPromptId, demoPromptId, demoPromptId,
   demoPromptId, demoPromptId, demoPromptId, fun _ => .ok "NONE"⟩

/-- A generative layer whose every call raises. -/
def demoEnvErr : LLMEnv :=
  ⟨demoPromptId, demoPromptId, demoPromptId, demoPromptId,
   demoPromptId, demoPromptId, demoPromptId, fun _ => .error "llm down"⟩

/-- A generative layer that tags the key-findings prompt and answers it with
one finding, while answering `"NONE"` to every other (filter) prompt. -/
def demoCexEnv : LLMEnv :=
  ⟨demoPromptId, demoPromptId, demoPromptId, demoPromptId,
   (fun context _ => "KF:" ++ context), demoPromptId, demoPromptId,
   fun p => if pyStartswith "KF:" p then .ok "1. Experts praise the battery"
            else .ok "NONE"⟩

/-- A raw search result pointing at a video host (`url` key set, as produced
by `search()`). -/
def demoRawYt : SRec :=
  ⟨some "Phone X full review", some "watch this",
   some "https://www.youtube.com/watch?v=abc123", none, some "youtube.com", some ""⟩

/-- The formatted form of `demoRawYt`: the URL now sits under `link`. -/
def demoFmtYt : SRec :=
  ⟨some "Phone X full review", some "watch this", none,
   some "https://www.youtube.com/watch?v=abc123", some "youtube.com", some ""⟩

/-- A scraped product dict with an empty title (so neither enrichment branch
issues a network call) and a product id. -/
def demoPData : PData := ⟨some "", some "amazon", some "B01XYZ", none, none, none, none⟩

/-- A scraper that succeeds with `demoPData`. -/
def demoScraper : Scraper := ⟨fun _ => some "B01XYZ", "amazon", fun _ => .ok demoPData⟩

/-- A scraper whose `scrape_product` raises. -/
def demoFailScraper : Scraper := ⟨fun _ => some "B01XYZ", "amazon", fun _ => .error "boom"⟩

/-- An environment with an empty cache, a working cache store, no network
search, and a working analysis LLM, around `demoScraper`. -/
def demoOrchEnv : OrchEnv :=
  ⟨fun _ => .ok demoScraper, fun _ => .ok none, fun _ _ _ => .ok (),
   fun _ => .error "no-net", fun _ _ => .error "no-net", fun _ => .ok "great analysis"⟩

/-- The same environment around the failing scraper. -/
def demoFailEnv : OrchEnv :=
  ⟨fun _ => .ok demoFailScraper, fun _ => .ok none, fun _ _ _ => .ok (),
   fun _ => .error "no-net", fun _ _ => .error "no-net", fun _ => .ok "great analysis"⟩

/-! ## Theorems -/

/-! ### General lemmas about the primitives -/

theorem charOfNat_toNat {n : Nat} (h : n.isValidChar) : (Char.ofNat n).toNat = n := by
  unfold Char.ofNat
  rw [dif_pos h]
  rfl

theorem pyLowerChar_not_upper (c : Char) : isUpperAscii (pyLowerChar c) = false := by
  unfold pyLowerChar
  by_cases h : isUpperAscii c = true
  · have hb : 65 ≤ c.toNat ∧ c.toNat ≤ 90 := by
      simpa [isUpperAscii, Bool.and_eq_true, decide_eq_true_eq] using h
    have hv : (c.toNat + 32).isValidChar := Or.inl (by omega)
    have ht : (Char.ofNat (c.toNat + 32)).toNat = c.toNat + 32 := charOfNat_toNat hv
    have hgt : ¬ (c.toNat + 32 ≤ 90) := by omega
    rw [if_pos h]
    simp [isUpperAscii, ht, hgt]
  · simp only [Bool.not_eq_true] at h
    simp [h]

theorem pyLowerChar_of_not_upper {c : Char} (h : isUpperAscii c = false) :
    pyLowerChar c = c := by
  simp [pyLowerChar, h]

theorem pyLowerChar_idem (c : Char) : pyLowerChar (pyLowerChar c) = pyLowerChar c :=
  pyLowerChar_of_not_upper (pyLowerChar_not_upper c)

theorem pyLower_idem (s : String) : pyLower (pyLower s) = pyLower s := by
  unfold pyLower
  rw [List.map_map]
  exact congrArg String.mk (List.map_congr_left (fun a _ => pyLowerChar_idem a))

theorem headD_mem {α : Type} {l : List α} (h : l ≠ []) (d : α) : l.headD d ∈ l := by
  cases l with
  | nil => exact absurd rfl h
  | cons a t => simp

theorem getLastD_mem {α : Type} : ∀ {l : List α}, l ≠ [] → ∀ d : α, l.getLastD d ∈ l
  | [], h, _ => absurd rfl h
  | [a], _, d => by simp [List.getLastD]
  | a :: b :: t, _, d => by
    rw [List.getLastD_cons]
    exact List.mem_cons_of_mem a (getLastD_mem (List.cons_ne_nil b t) a)

theorem sorted_headD_rel {α : Type} {r : α → α → Prop} {l : List α}
    (hs : l.Sorted r) (d : α) {x : α} (hx : x ∈ l) :
    x = l.headD d ∨ r (l.headD d) x := by
  cases l with
  | nil => cases hx
  | cons a t =>
    rcases List.mem_cons.mp hx with rfl | hx'
    · exact Or.inl rfl
    · exact Or.inr ((List.sorted_cons.mp hs).1 x hx')

theorem sorted_getLastD_rel {α : Type} {r : α → α → Prop} :
    ∀ {l : List α}, l.Sorted r → ∀ (d : α) {x : α}, x ∈ l →
      x = l.getLastD d ∨ r x (l.getLastD d)
  | [], _, _, x, hx => absurd hx (List.not_mem_nil x)
  | [a], _, d, x, hx => by
    rcases List.mem_singleton.mp hx with rfl
    exact Or.inl (by simp [List.getLastD])
  | a :: b :: t, hs, d, x, hx => by
    rw [List.getLastD_cons]
    rcases List.mem_cons.mp hx with rfl | hx'
    · exact Or.inr ((List.sorted_cons.mp hs).1 _
        (getLastD_mem (List.cons_ne_nil b t) x))
    · exact sorted_getLastD_rel (List.sorted_cons.mp hs).2 a hx'

theorem offerLE_refl (o : Offer) : offerLE o o := Or.inr ⟨rfl, le_refl _⟩

theorem offerLE_price_le {x y : Offer} (h : offerLE x y) : x.price ≤ y.price := by
  rcases h with h | ⟨h, _⟩
  · exact le_of_lt h
  · exact le_of_eq h

theorem roundHalfEvenInt_nonneg {y : ℚ} (hy : 0 ≤ y) : 0 ≤ roundHalfEvenInt y := by
  have hn : (0 : ℤ) ≤ ⌊y⌋ := Int.floor_nonneg.mpr hy
  unfold roundHalfEvenInt
  split_ifs <;> omega

theorem round2_nonneg {x : ℚ} (hx : 0 ≤ x) : 0 ≤ round2 x := by
  unfold round2
  have h : (0 : ℤ) ≤ roundHalfEvenInt (x * 100) :=
    roundHalfEvenInt_nonneg (by positivity)
  have h' : (0 : ℚ) ≤ (roundHalfEvenInt (x * 100) : ℚ) := by exact_mod_cast h
  positivity

theorem round2_zero : round2 0 = 0 := by
  norm_num [round2, roundHalfEvenInt]

/-! ### Lemmas about the orchestrator nodes -/

theorem check_cache_preserves (env : OrchEnv) (s : WState) :
    (check_cache_node env s).url = s.url ∧
    (check_cache_node env s).amazon_data = s.amazon_data ∧
    (check_cache_node env s).price_comparison_data = s.price_comparison_data ∧
    (check_cache_node env s).web_search_data = s.web_search_data := by
  refine ⟨?_, ?_, ?_, ?_⟩ <;> simp only [check_cache_node] <;> (repeat' split) <;> rfl

theorem scrape_preserves (env : OrchEnv) (s : WState) :
    (scrape_amazon_node env s).price_comparison_data = s.price_comparison_data ∧
    (scrape_amazon_node env s).web_search_data = s.web_search_data ∧
    (scrape_amazon_node env s).product_data = s.product_data := by
  refine ⟨?_, ?_, ?_⟩ <;> simp only [scrape_amazon_node] <;> (repeat' split) <;> rfl

theorem price_node_data_none (env : OrchEnv) {s : WState} (h : s.amazon_data = none) :
    (price_comparison_node env s).data = none := by
  simp [price_comparison_node, h]

theorem web_node_data_none (env : OrchEnv) {s : WState} (h : s.amazon_data = none) :
    (web_search_node env s).data = none := by
  simp [web_search_node, h]

theorem combine_ok_of_none {s : WState} (hp : s.price_comparison_data = none)
    (hw : s.web_search_data = none) :
    combine_results_node s = .ok { s with product_data := s.amazon_data } := by
  unfold combine_results_node
  rw [hp, hw]

theorem combine_ok_of_amazon {s : WState} {pd : PData} (ha : s.amazon_data = some pd) :
    ∃ s', combine_results_node s = .ok s' := by
  unfold combine_results_node
  rw [ha]
  cases hpc : s.price_comparison_data with
  | none =>
    cases hws : s.web_search_data with
    | none => exact ⟨_, rfl⟩
    | some wsd => exact ⟨_, rfl⟩
  | some pcd =>
    cases hws : s.web_search_data with
    | none => exact ⟨_, rfl⟩
    | some wsd => exact ⟨_, rfl⟩

theorem fetch_path_success (env : OrchEnv) (s1 : WState)
    (h1 : s1.price_comparison_data = none) (h2 : s1.web_search_data = none) :
    (fetch_path env s1).success = true := by
  have hs2p : (scrape_merged env s1).price_comparison_data = none := by
    show (scrape_amazon_node env s1).price_comparison_data = none
    rw [(scrape_preserves env s1).1, h1]
  have hs2w : (scrape_merged env s1).web_search_data = none := by
    show (scrape_amazon_node env s1).web_search_data = none
    rw [(scrape_preserves env s1).2.1, h2]
  cases ham : (scrape_merged env s1).amazon_data with
  | none =>
    have h4p : (branches_merged env s1).price_comparison_data = none := by
      show (match (price_comparison_node env (scrape_merged env s1)).data with
            | some d => some d
            | none => (scrape_merged env s1).price_comparison_data) = none
      rw [price_node_data_none env ham]
      exact hs2p
    have h4w : (branches_merged env s1).web_search_data = none := by
      show (match (web_search_node env (scrape_merged env s1)).data with
            | some d => some d
            | none => (scrape_merged env s1).web_search_data) = none
      rw [web_node_data_none env ham]
      exact hs2w
    simp only [fetch_path]
    rw [combine_ok_of_none h4p h4w]
  | some pd =>
    have ha4 : (branches_merged env s1).amazon_data = some pd := ham
    obtain ⟨s', hok⟩ := combine_ok_of_amazon ha4
    simp only [fetch_path]
    rw [hok]

theorem fetch_path_errors_extend (env : OrchEnv) (s1 : WState) (x : String)
    (hx : x ∈ (branches_merged env s1).errors)
    (hsuc : (fetch_path env s1).success = true) :
    x ∈ (fetch_path env s1).errors := by
  simp only [fetch_path] at hsuc ⊢
  cases hcc : combine_results_node (branches_merged env s1) with
  | error e =>
    rw [hcc] at hsuc
    exact Bool.noConfusion hsuc
  | ok ret =>
    exact List.mem_append_left _ (List.mem_append_left _ (List.mem_append_left _ hx))

theorem save_writes_shape (env : OrchEnv) (s : WState) :
    ∀ w ∈ (save_to_cache_node env s).2, w.ttl = 86400 ∧
      ∃ id pd, w.key = "product:" ++ id ∧ w.value = CVal.jsonData pd := by
  intro w hw
  simp only [save_to_cache_node] at hw
  repeat' split at hw
  all_goals
    first
    | exact absurd hw (List.not_mem_nil w)
    | (rw [List.mem_singleton] at hw
       subst hw
       exact ⟨rfl, _, _, rfl, rfl⟩)

theorem analyze_writes_shape (env : OrchEnv) (s : WState) :
    ∀ w ∈ (analyze_with_llm_node env s).2, w.ttl = 86400 ∧
      ∃ id a, w.key = "product:" ++ id ++ ":analysis" ∧ w.value = CVal.str a := by
  intro w hw
  simp only [analyze_with_llm_node] at hw
  repeat' split at hw
  all_goals
    first
    | exact absurd hw (List.not_mem_nil w)
    | (rw [List.mem_singleton] at hw
       subst hw
       exact ⟨rfl, _, _, rfl, rfl⟩)

theorem fetch_path_writes_shape (env : OrchEnv) (s1 : WState) :
    ∀ w ∈ (fetch_path env s1).writes, w.ttl = 86400 ∧
      ((∃ id pd, w.key = "product:" ++ id ∧ w.value = CVal.jsonData pd) ∨
       (∃ id a, w.key = "product:" ++ id ++ ":analysis" ∧ w.value = CVal.str a)) := by
  intro w hw
  simp only [fetch_path] at hw
  split at hw
  · exact absurd hw (List.not_mem_nil w)
  · rcases List.mem_append.mp hw with h | h
    · have hs := save_writes_shape env _ w h
      exact ⟨hs.1, Or.inl hs.2⟩
    · have ha := analyze_writes_shape env _ w h
      exact ⟨ha.1, Or.inr ha.2⟩

/-! ### Claim theorems -/

/-- C5 (corrected): for every pair of titles and every threshold, the final
score equals 0.7 × attribute agreement + 0.3 × character-sequence similarity,
where the attribute agreement is (attributes present in either title that
match exactly) / (attributes present in either title) over the set brand,
storage capacity, RAM and coarse model token — color is extracted but
excluded from the agreement, contrary to the claim's wording — and
`_is_same_product(ref, cand, threshold)` returns true iff that score is at
least the threshold (source default 0.65). -/
theorem C5_similarity_formula (t1 t2 : String) (threshold : ℚ) :
    calculate_product_similarity t1 t2 =
      attribute_similarity t1 t2 * (7/10) + sequence_similarity t1 t2 * (3/10) ∧
    (is_same_product t1 t2 threshold = true ↔
      threshold ≤ calculate_product_similarity t1 t2) :=
  ⟨rfl, by simp [is_same_product]⟩

attribute [local semireducible] Rat.mul Rat.inv Rat.add Rat.sub in
/-- C5 counterexample: on the titles "apple black" and "apple white" the
claimed score (agreement over brand/storage/RAM/color/model) differs from the
code's score: the extracted colors disagree, so the claimed agreement is 1/2
while the code's (color-free) agreement is 1, and the two formulas share the
same sequence-similarity term. -/
theorem C5_color_counterexample :
    claimedSimilarityWithColor "apple black" "apple white" ≠
      calculate_product_similarity "apple black" "apple white" := by
  have h1 : claimedAttributeAgreementWithColor "apple black" "apple white" = 1/2 := by
    decide
  have h2 : attribute_similarity "apple black" "apple white" = 1 := by decide
  intro heq
  unfold claimedSimilarityWithColor calculate_product_similarity at heq
  rw [h1, h2] at heq
  linarith

/-- C6 (corrected): when neither title yields a brand, storage, RAM or model
attribute, the score equals 0.3 × the sequence similarity of the two
normalized titles (not the pure sequence similarity), and no error occurs —
the computation is total. -/
theorem C6_no_attribute_score (t1 t2 : String)
    (hb1 : (extract_product_attributes t1).brand = none)
    (hs1 : (extract_product_attributes t1).storage = none)
    (hr1 : (extract_product_attributes t1).ram = none)
    (hm1 : (extract_product_attributes t1).model = none)
    (hb2 : (extract_product_attributes t2).brand = none)
    (hs2 : (extract_product_attributes t2).storage = none)
    (hr2 : (extract_product_attributes t2).ram = none)
    (hm2 : (extract_product_attributes t2).model = none) :
    calculate_product_similarity t1 t2 = sequence_similarity t1 t2 * (3/10) := by
  simp only [calculate_product_similarity, attribute_similarity]
  rw [hb1, hs1, hr1, hm1, hb2, hs2, hr2, hm2]
  simp [keyTally]

theorem C6_no_attribute_score_witness :
    (extract_product_attributes "qq").brand = none ∧
    calculate_product_similarity "qq" "qq" = sequence_similarity "qq" "qq" * (3/10) :=
  ⟨by decide,
   C6_no_attribute_score "qq" "qq" (by decide) (by decide) (by decide) (by decide)
     (by decide) (by decide) (by decide) (by decide)⟩

attribute [local semireducible] Rat.mul Rat.inv Rat.add Rat.sub in
/-- C6 counterexample to the claim as stated: the title "qq" yields no
extractable attribute at all (color included), yet the score of "qq" against
itself is 0.3, while its pure sequence similarity is 1 — so the score does
not degenerate to the pure sequence similarity. -/
theorem C6_pure_sequence_counterexample :
    extract_product_attributes "qq" = ⟨none, none, none, none, none⟩ ∧
    sequence_similarity "qq" "qq" = 1 ∧
    calculate_product_similarity "qq" "qq" = 3/10 ∧
    calculate_product_similarity "qq" "qq" ≠ sequence_similarity "qq" "qq" :=
  ⟨by decide, by decide, by decide, by decide⟩

/-- C7 (confirmed): the price summary of the aggregation is computed over
exactly the strictly-positively-priced offers; its count is 0 iff no such
offer exists, in which case min, max, mean and median are all 0 (and the
computation is total); and the best deal is present iff the count is
positive. -/
theorem C7_price_stats_spec (offers : List Offer) :
    (aggregate_offers offers).price_stats =
      calculate_price_stats (offers.filter (fun r => decide (0 < r.price))) ∧
    ((aggregate_offers offers).price_stats.total_results = 0 ↔
      ∀ o ∈ offers, ¬ (0 < o.price)) ∧
    ((aggregate_offers offers).price_stats.total_results = 0 →
      (aggregate_offers offers).price_stats = zeroStats) ∧
    ((aggregate_offers offers).best_deal.isSome = true ↔
      0 < (aggregate_offers offers).price_stats.total_results) := by
  have hcount : ∀ l : List Offer, (calculate_price_stats l).total_results = l.length := by
    intro l
    unfold calculate_price_stats
    split_ifs with h
    · rw [List.isEmpty_iff.mp h]; rfl
    · simp
  have hstats : (aggregate_offers offers).price_stats =
      calculate_price_stats (offers.filter (fun r => decide (0 < r.price))) := rfl
  refine ⟨hstats, ?_, ?_, ?_⟩
  · rw [hstats, hcount, List.length_eq_zero, List.filter_eq_nil_iff]
    simp
  · intro h0
    rw [hstats, hcount, List.length_eq_zero] at h0
    rw [hstats, h0]
    rfl
  · have hbd : (aggregate_offers offers).best_deal =
        (if !(offers.filter (fun r => decide (0 < r.price))).isEmpty then
          find_best_deal (offers.filter (fun r => decide (0 < r.price))) else none) := rfl
    rw [hstats, hcount, hbd]
    cases hl : offers.filter (fun r => decide (0 < r.price)) with
    | nil => simp
    | cons a t => simp [find_best_deal]

theorem C7_price_stats_spec_witness :
    (aggregate_offers [demoOffer]).best_deal.isSome = true :=
  (C7_price_stats_spec [demoOffer]).2.2.2.mpr (by decide)

/-- C8 (corrected): for every non-empty positively-priced offer list the best
deal is an offer minimizing price with ties broken by higher rating; its
savings field is the difference (max price) − (best price) **rounded to two
decimals** (hence still nonnegative), and its savings-percent field is
savings / max price × 100 likewise rounded, 0 whenever the max price is 0 or
the best price equals the max price. -/
theorem C8_best_deal_spec (results : List Offer) (hne : results ≠ []) :
    BestDealSpec results := by
  have hEmpty : results.isEmpty = false := by
    cases results with
    | nil => exact absurd rfl hne
    | cons a t => rfl
  have hperm : List.Perm (List.insertionSort offerLE results) results :=
    List.perm_insertionSort offerLE results
  have hsort : (List.insertionSort offerLE results).Sorted offerLE :=
    List.sorted_insertionSort offerLE results
  have hsne : List.insertionSort offerLE results ≠ [] := by
    intro h
    exact hne (List.perm_nil.mp (h ▸ hperm.symm))
  have hbestmem : (List.insertionSort offerLE results).headD dummyOffer ∈ results :=
    hperm.mem_iff.mp (headD_mem hsne dummyOffer)
  have hlastmem : (List.insertionSort offerLE results).getLastD dummyOffer ∈ results :=
    hperm.mem_iff.mp (getLastD_mem hsne dummyOffer)
  have hmin : ∀ o ∈ results, offerLE ((List.insertionSort offerLE results).headD dummyOffer) o := by
    intro o ho
    rcases sorted_headD_rel hsort dummyOffer (hperm.mem_iff.mpr ho) with heq | h
    · cases heq; exact offerLE_refl _
    · exact h
  have hmax : ∀ o ∈ results,
      o.price ≤ ((List.insertionSort offerLE results).getLastD dummyOffer).price := by
    intro o ho
    rcases sorted_getLastD_rel hsort dummyOffer (hperm.mem_iff.mpr ho) with heq | h
    · cases heq; exact le_refl _
    · exact offerLE_price_le h
  refine ⟨bestDealOf results, ?_, ?_, ?_, ?_⟩
  · unfold find_best_deal
    rw [if_neg (by simp [hEmpty])]
  · exact ⟨(List.insertionSort offerLE results).headD dummyOffer, hbestmem,
      rfl, rfl, rfl, rfl, rfl, rfl⟩
  · exact hmin
  · refine ⟨((List.insertionSort offerLE results).getLastD dummyOffer).price,
      hmax, ⟨(List.insertionSort offerLE results).getLastD dummyOffer, hlastmem, rfl⟩,
      rfl, ?_, rfl, ?_⟩
    · exact round2_nonneg (sub_nonneg.mpr (hmax _ hbestmem))
    · intro hpm
      have hbp : (bestDealOf results).price
          = ((List.insertionSort offerLE results).headD dummyOffer).price := rfl
      constructor
      · show round2 (((List.insertionSort offerLE results).getLastD dummyOffer).price -
          ((List.insertionSort offerLE results).headD dummyOffer).price) = 0
        rw [← hbp, hpm, sub_self, round2_zero]
      · show round2 (if 0 < ((List.insertionSort offerLE results).getLastD dummyOffer).price
            then (((List.insertionSort offerLE results).getLastD dummyOffer).price -
              ((List.insertionSort offerLE results).headD dummyOffer).price) /
              ((List.insertionSort offerLE results).getLastD dummyOffer).price * 100
            else 0) = 0
        rw [← hbp, hpm, sub_self]
        split_ifs <;> simp [round2_zero]

theorem C8_best_deal_spec_witness :
    demoOffers ≠ [] ∧ BestDealSpec demoOffers :=
  ⟨by decide, C8_best_deal_spec demoOffers (by decide)⟩

attribute [local semireducible] Rat.mul Rat.inv Rat.add Rat.sub in
/-- C8 counterexample to the claim as stated: with best price 1.125 and max
price 2.25 (both binary-exact as floats), the code stores
`round(1.125, 2) = 1.12` in the savings field, so `BestDeal.savings` is not
the exact difference (max price) − (best price). -/
theorem C8_rounding_counterexample :
    (find_best_deal demoRoundOffers).map (fun bd => bd.savings) = some (28/25) ∧
    (28/25 : ℚ) ≠ (9/4 : ℚ) - 9/8 := by
  constructor
  · decide
  · norm_num

/-- C10 (confirmed): `_extract_platform_from_source` always yields a string
that is a fixed point of lowercasing (a fixed lowercase marketplace token or
the lowercased seller), so the `normalized['platform'] == source_platform`
exclusion in `compare_prices` — a case-sensitive string equality — can never
exclude an offer when the supplied source platform is not itself lowercase. -/
theorem C10_platform_lowercase (s : String) (raw : RawShopItem) (sp : String)
    (h : pyLower sp ≠ sp) :
    pyLower (extract_platform_from_source s) = extract_platform_from_source s ∧
    (normalize_result raw).platform ≠ sp := by
  have key : ∀ t : String,
      pyLower (extract_platform_from_source t) = extract_platform_from_source t := by
    intro t
    simp only [extract_platform_from_source]
    split_ifs <;> first | exact pyLower_idem _ | decide
  refine ⟨key s, fun heq => h ?_⟩
  have hplat : (normalize_result raw).platform
      = extract_platform_from_source (pyGet raw.source "N/A") := rfl
  rw [← heq, hplat]
  exact key _

/-- C2 (corrected): the three synthesis operations all read the same pooled,
un-deduplicated union of the five categories' findings — but the union of the
**pre-relevance-filter** lists (the filters run in parallel with the
synthesis calls and their outputs are never pooled); key findings and red
flags read at most the first 20 pooled items, sentiment at most the first
15. -/
theorem C2_synthesis_inputs (env : LLMEnv)
    (ext comp iss red news : List SRec) (name : String) :
    ((analyze_product env ext comp iss red news name).key_findings =
        summarize_with_llm env (ext ++ comp ++ iss ++ red ++ news) name ∧
      (analyze_product env ext comp iss red news name).red_flags =
        detect_red_flags env (ext ++ comp ++ iss ++ red ++ news) name ∧
      (analyze_product env ext comp iss red news name).overall_sentiment =
        analyze_sentiment env (ext ++ comp ++ iss ++ red ++ news) name) ∧
    (∀ p q : List SRec, p.take 20 = q.take 20 →
      summarize_with_llm env p name = summarize_with_llm env q name) ∧
    (∀ p q : List SRec, p.take 20 = q.take 20 →
      detect_red_flags env p name = detect_red_flags env q name) ∧
    (∀ p q : List SRec, p.take 15 = q.take 15 →
      analyze_sentiment env p name = analyze_sentiment env q name) := by
  have hemk : ∀ (p q : List SRec) (n : Nat), p.take (n + 1) = q.take (n + 1) →
      p = [] → q = [] := by
    intro p q n h hp
    subst hp
    cases q with
    | nil => rfl
    | cons a t => simp at h
  refine ⟨⟨rfl, rfl, rfl⟩, ?_, ?_, ?_⟩
  · intro p q h
    by_cases hp : p = []
    · rw [hp, hemk p q 19 h hp]
    · have hq : q ≠ [] := fun hh => hp (hemk q p 19 h.symm hh)
      have e1 : p.isEmpty = false := by
        cases p with | nil => exact absurd rfl hp | cons a t => rfl
      have e2 : q.isEmpty = false := by
        cases q with | nil => exact absurd rfl hq | cons a t => rfl
      have hctx : keyFindingsContext p name = keyFindingsContext q name := by
        unfold keyFindingsContext
        rw [h]
      simp only [summarize_with_llm, e1, e2, Bool.false_eq_true, if_false, hctx]
  · intro p q h
    by_cases hp : p = []
    · rw [hp, hemk p q 19 h hp]
    · have hq : q ≠ [] := fun hh => hp (hemk q p 19 h.symm hh)
      have e1 : p.isEmpty = false := by
        cases p with | nil => exact absurd rfl hp | cons a t => rfl
      have e2 : q.isEmpty = false := by
        cases q with | nil => exact absurd rfl hq | cons a t => rfl
      have hctx : redFlagsContext p name = redFlagsContext q name := by
        unfold redFlagsContext
        rw [h]
      simp only [detect_red_flags, e1, e2, Bool.false_eq_true, if_false, hctx]
  · intro p q h
    by_cases hp : p = []
    · rw [hp, hemk p q 14 h hp]
    · have hq : q ≠ [] := fun hh => hp (hemk q p 14 h.symm hh)
      have e1 : p.isEmpty = false := by
        cases p with | nil => exact absurd rfl hp | cons a t => rfl
      have e2 : q.isEmpty = false := by
        cases q with | nil => exact absurd rfl hq | cons a t => rfl
      have hctx : sentimentContext p name = sentimentContext q name := by
        unfold sentimentContext
        rw [h]
      simp only [analyze_sentiment, e1, e2, Bool.false_eq_true, if_false, hctx]

theorem C2_synthesis_inputs_witness :
    (analyze_product demoEnvNone [demoFinding] [] [] [] [] "P").key_findings =
      summarize_with_llm demoEnvNone ([demoFinding] ++ [] ++ [] ++ [] ++ []) "P" ∧
    analyze_sentiment demoEnvNone (List.replicate 21 demoFinding) "P" =
      analyze_sentiment demoEnvNone (List.replicate 16 demoFinding) "P" :=
  ⟨(C2_synthesis_inputs demoEnvNone [demoFinding] [] [] [] [] "P").1.1,
   (C2_synthesis_inputs demoEnvNone [] [] [] [] [] "P").2.2.2
     (List.replicate 21 demoFinding) (List.replicate 16 demoFinding) (by decide)⟩

set_option maxRecDepth 10000 in
/-- C2 counterexample to the claim as stated: with one review finding that
the relevance filter rejects (`"NONE"`), the key findings are still computed
from the un-filtered pool — the actual output differs from what the same
generative layer produces on the filtered pooled union. -/
theorem C2_filtered_pool_counterexample :
    (analyze_product demoCexEnv [demoFinding] [] [] [] [] "P").key_findings =
      ["Experts praise the battery"] ∧
    summarize_with_llm demoCexEnv
      ((filter_irrelevant_content demoCexEnv [demoFinding] "P" "review" ++
        filter_irrelevant_content demoCexEnv [] "P" "comparison" ++
        ([] : List SRec) ++
        filter_irrelevant_content demoCexEnv [] "P" "reddit" ++
        filter_irrelevant_content demoCexEnv [] "P" "news").take 20) "P" =
      ["No external information found"] ∧
    (["Experts praise the battery"] : List String) ≠
      ["No external information found"] :=
  ⟨by decide, by decide, by decide⟩

/-- C3 (code bug): the combined pool handed to `_extract_video_reviews`
consists of `_filter_and_format` outputs, which store the URL under the
`link` key, while the extractor reads the `url` key — so the video-mentions
list is empty even when a pooled finding's URL is a YouTube link.  The last
conjunct shows the extractor recognizes the very same record when its URL
still sits under `url`, pinning the key drift as the cause. -/
theorem C3_video_extraction_bug :
    filter_and_format [demoRawYt] "flipkart" = [demoFmtYt] ∧
    pyIn "youtube.com" (pyGet demoFmtYt.link "") = true ∧
    (analyze_product demoEnvErr (filter_and_format [demoRawYt] "flipkart")
      [] [] [] [] "P").video_reviews = [] ∧
    extract_video_reviews [demoRawYt] =
      [⟨"Phone X full review", "https://www.youtube.com/watch?v=abc123",
        "youtube.com", "watch this"⟩] :=
  ⟨by decide, by decide, by decide, by decide⟩

/-- C4 (confirmed): per-category relevance filtering over the 1-indexed
enumerated context: an empty category short-circuits to `[]`; a generative
response containing the `"none"` signal (case-insensitive) yields `[]`
without throwing; any other response keeps exactly the findings at the
1-based integer indices it contains; and a generative-layer failure passes
the whole category through unfiltered (fail-open). -/
theorem C4_filter_spec (env : LLMEnv) (results : List SRec)
    (product_name content_type : String) :
    filter_irrelevant_content env [] product_name content_type = [] ∧
    (∀ e, results ≠ [] →
      env.invoke (filterPromptFor env content_type
        (filterContext results product_name content_type) product_name) = .error e →
      filter_irrelevant_content env results product_name content_type = results) ∧
    (∀ response, results ≠ [] →
      env.invoke (filterPromptFor env content_type
        (filterContext results product_name content_type) product_name) = .ok response →
      (pyIn "NONE" (pyUpper (pyStrip response)) = true →
        filter_irrelevant_content env results product_name content_type = []) ∧
      (pyIn "NONE" (pyUpper (pyStrip response)) = false →
        filter_irrelevant_content env results product_name content_type =
          (results.enum.filter (fun p =>
            (findAllNats (pyUpper (pyStrip response))).contains (p.1 + 1))).map
            Prod.snd)) := by
  refine ⟨rfl, ?_, ?_⟩
  · intro e hne hinv
    have hE : results.isEmpty = false := by
      cases results with | nil => exact absurd rfl hne | cons a t => rfl
    simp only [filter_irrelevant_content, hE, Bool.false_eq_true, if_false, hinv]
  · intro response hne hinv
    have hE : results.isEmpty = false := by
      cases results with | nil => exact absurd rfl hne | cons a t => rfl
    constructor
    · intro hNONE
      simp only [filter_irrelevant_content, hE, Bool.false_eq_true, if_false, hinv,
        hNONE, Bool.or_true, if_true]
    · intro hNONE
      have hbeq : (pyUpper (pyStrip response) == "NONE") = false := by
        by_contra hc
        rw [Bool.not_eq_false] at hc
        have heq : pyUpper (pyStrip response) = "NONE" := by
          exact eq_of_beq hc
        rw [heq] at hNONE
        exact absurd hNONE (by decide)
      simp only [filter_irrelevant_content, hE, Bool.false_eq_true, if_false, hinv,
        hNONE, hbeq, Bool.or_false, if_false]

theorem C4_filter_spec_witness :
    filter_irrelevant_content demoEnvNone [demoFinding] "P" "review" = [] :=
  ((C4_filter_spec demoEnvNone [demoFinding] "P" "review").2.2 "NONE"
    (by decide) rfl).1 (by decide)

theorem C10_platform_lowercase_witness :
    pyLower "Amazon" ≠ "Amazon" ∧
    (pyLower (extract_platform_from_source "Flipkart.com")
        = extract_platform_from_source "Flipkart.com" ∧
      (normalize_result demoRawItem).platform ≠ "Amazon") :=
  ⟨by decide, C10_platform_lowercase "Flipkart.com" demoRawItem "Amazon" (by decide)⟩

/-- C1 (corrected): `run(url)` always returns the structured
`{success, data, analysis, errors}` record with `success = true`: **every**
component failure — the initial scrape included — is caught at its origin,
appends a descriptive entry to the run's error list, and lets the run
continue to the analysis step.  (`success = false` would require an
exception escaping the graph engine itself; the one guard-free node,
`combine_results`, is proven unreachable in its raising branch.) -/
theorem C1_run_degrades (env : OrchEnv) (url : String) :
    (run env url).success = true ∧
    (∀ sc e, env.get_scraper url = .ok sc → sc.scrape_product url = .error e →
      (check_cache_node env (initial_state url)).product_data = none →
      ("Scraping error: " ++ e) ∈ (run env url).errors) := by
  have hpcd1 : (mergeFull (initial_state url)
      (check_cache_node env (initial_state url))).price_comparison_data = none := by
    show (check_cache_node env (initial_state url)).price_comparison_data = none
    rw [(check_cache_preserves env (initial_state url)).2.2.1]
    rfl
  have hwsd1 : (mergeFull (initial_state url)
      (check_cache_node env (initial_state url))).web_search_data = none := by
    show (check_cache_node env (initial_state url)).web_search_data = none
    rw [(check_cache_preserves env (initial_state url)).2.2.2]
    rfl
  constructor
  · simp only [run]
    by_cases hful : (should_skip_fetching (mergeFull (initial_state url)
        (check_cache_node env (initial_state url))) == "fully_cached") = true
    · rw [if_pos hful]
    · rw [if_neg hful]
      by_cases hdat : (should_skip_fetching (mergeFull (initial_state url)
          (check_cache_node env (initial_state url))) == "data_cached") = true
      · rw [if_pos hdat]
      · rw [if_neg hdat]
        exact fetch_path_success env _ hpcd1 hwsd1
  · intro sc e hsc hse hpd
    have hs1pd : (mergeFull (initial_state url)
        (check_cache_node env (initial_state url))).product_data = none := hpd
    have hroute : should_skip_fetching (mergeFull (initial_state url)
        (check_cache_node env (initial_state url))) = "fetch" := by
      unfold should_skip_fetching
      rw [hs1pd]
    simp only [run, hroute]
    rw [if_neg (by decide), if_neg (by decide)]
    have hu : (mergeFull (initial_state url)
        (check_cache_node env (initial_state url))).url = url := by
      show (check_cache_node env (initial_state url)).url = url
      rw [(check_cache_preserves env (initial_state url)).1]
      rfl
    have hsret : scrape_amazon_node env (mergeFull (initial_state url)
        (check_cache_node env (initial_state url))) =
        { (mergeFull (initial_state url) (check_cache_node env (initial_state url))) with
          errors := (mergeFull (initial_state url)
            (check_cache_node env (initial_state url))).errors ++
            ["Scraping error: " ++ e]
          scraping_complete := true } := by
      simp only [scrape_amazon_node, hu, hsc, hse]
    have hmem2 : ("Scraping error: " ++ e) ∈ (scrape_merged env (mergeFull
        (initial_state url) (check_cache_node env (initial_state url)))).errors := by
      show ("Scraping error: " ++ e) ∈
        (mergeFull (initial_state url) (check_cache_node env (initial_state url))).errors ++
        (scrape_amazon_node env (mergeFull (initial_state url)
          (check_cache_node env (initial_state url)))).errors
      rw [hsret]
      exact List.mem_append_right _ (List.mem_append_right _ (List.mem_singleton_self _))
    have hmem4 : ("Scraping error: " ++ e) ∈ (branches_merged env (mergeFull
        (initial_state url) (check_cache_node env (initial_state url)))).errors :=
      List.mem_append_left _ (List.mem_append_left _ hmem2)
    exact fetch_path_errors_extend env _ _ hmem4
      (fetch_path_success env _ hpcd1 hwsd1)

theorem C1_run_degrades_witness :
    (run demoFailEnv "http://x").success = true ∧
    ("Scraping error: boom") ∈ (run demoFailEnv "http://x").errors :=
  ⟨(C1_run_degrades demoFailEnv "http://x").1,
   (C1_run_degrades demoFailEnv "http://x").2 demoFailScraper "boom" rfl rfl (by decide)⟩

/-- C1 counterexample to the claim as stated: a run whose scrape step throws
still returns `success = true` (with the failure recorded in `errors`), so
`success` is **not** false exactly when the initial scrape threw. -/
theorem C1_scrape_failure_counterexample :
    demoFailScraper.scrape_product "http://x" = .error "boom" ∧
    (run demoFailEnv "http://x").success = true ∧
    ("Scraping error: boom") ∈ (run demoFailEnv "http://x").errors :=
  ⟨rfl, by decide, by decide⟩

/-- C9 (corrected): every cache write a run issues is a whole-entry `setex`
with the fixed 24-hour TTL (86400 s) and a `product:`-prefixed key: the
enriched record (JSON dump) under `product:{id}`, the narrative analysis
string under `product:{id}:analysis`.  The key prefix is `product:`, not the
claim's `item:`. -/
theorem C9_cache_layout (env : OrchEnv) (url : String) :
    ∀ w ∈ (run env url).writes, w.ttl = 86400 ∧
      ((∃ id pd, w.key = "product:" ++ id ∧ w.value = CVal.jsonData pd) ∨
       (∃ id a, w.key = "product:" ++ id ++ ":analysis" ∧ w.value = CVal.str a)) := by
  intro w hw
  simp only [run] at hw
  split at hw
  · exact absurd hw (List.not_mem_nil w)
  · split at hw
    · have ha := analyze_writes_shape env _ w hw
      exact ⟨ha.1, Or.inr ha.2⟩
    · exact fetch_path_writes_shape env _ w hw

theorem C9_cache_layout_witness :
    (run demoOrchEnv "http://x").writes ≠ [] ∧
    ∀ w ∈ (run demoOrchEnv "http://x").writes, w.ttl = 86400 ∧
      ((∃ id pd, w.key = "product:" ++ id ∧ w.value = CVal.jsonData pd) ∨
       (∃ id a, w.key = "product:" ++ id ++ ":analysis" ∧ w.value = CVal.str a)) :=
  ⟨by decide, C9_cache_layout demoOrchEnv "http://x"⟩

/-- C9 counterexample to the claim as stated: a complete fetch-path run
persists the enriched record and the analysis under `product:B01XYZ` and
`product:B01XYZ:analysis` — no written key starts with `item:`. -/
theorem C9_key_prefix_counterexample :
    (run demoOrchEnv "http://x").writes.map CacheWrite.key =
      ["product:B01XYZ", "product:B01XYZ:analysis"] ∧
    (∀ w ∈ (run demoOrchEnv "http://x").writes,
      pyStartswith "item:" w.key = false ∧ w.ttl = 86400) :=
  ⟨by decide, by decide⟩

end ProductReview
